import Mathlib

/-!
Shallow embedding of the GeoTrack analytics/annotation/simulation engine.

Sources embedded here:
* `src/services/parser.ts` — `getDistance` (haversine), `calculateBounds`,
  `calculateDistance`, `parseData` / `parseGPX` / `parseKML` / `parseCSV`;
* `src/unnamed/part_000` (the sidebar component) — `trackMetadata` (the
  metadata aggregator), `calculateBearing`, the simulation tick (`animate`),
  the simulation position-resolution effect, and the annotation-marker scan.

Modelling conventions:
* JavaScript numbers are modelled over a `LinearOrderedField α`; the scan and
  player logic is field-generic and is instantiated at `ℝ` (with the real
  haversine `getDistance`) for the geometric claims and at `ℚ` for concrete
  executable witnesses.  Real division by zero yields `0` in Lean; where the
  source can genuinely divide by zero (the speed detector's `prevSpeed`),
  the JS result (a signed infinity or NaN) is modelled explicitly by `jsDiv`
  and `JsNum`; the remaining code paths exercised by the claims avoid the JS
  `Infinity`/`NaN` cases, except where explicitly discussed (the epoch-0
  truthiness counterexamples).
* A timestamp field `time : Option α` models the point's timestamp string:
  `none` for a missing/empty string, `some t` for a string parsing to `t`
  milliseconds since the epoch (`new Date(s).getTime()` is abstracted to the
  stored number).  JavaScript truthiness checks on the *numeric* timestamp
  values (`firstTime`, `prevTime`, `stopStartTime`), where `0` is falsy, are
  modelled explicitly by comparisons with `0`.
* Marker labels are formatted strings in the source (`toFixed` etc.); markers
  here carry the underlying numeric label value (`value`): the distance
  threshold for DISTANCE, the elapsed ms for TIME, the km/h speed for SPEED,
  and the duration in minutes for STOP.
* Display-only statistics of `trackMetadata` (elevation min/max, average
  speed, the formatted total-time and date strings) are not referenced by any
  claim and are omitted from the embedded record.
* External libraries (`DOMParser`+`@tmcw/togeojson`, `Papa.parse`, `Date`
  parsing) are parameters of the embedded parsers; a parameter returning
  `Except` models a library call that may throw.
-/

namespace GeoTrack

variable {α : Type*} [LinearOrderedField α]

/-- A track point: `lat`/`lon` in degrees, optional elevation (m) and optional
timestamp (ms since epoch, abstracting the timestamp string). -/
structure GeoPoint (α : Type*) where
  lat : α
  lon : α
  ele : Option α := none
  time : Option α := none
deriving DecidableEq

/-- The normalized track produced by the parsers (`TrackData` in `types.ts`). -/
structure TrackData (α : Type*) where
  name : String
  points : List (GeoPoint α)
  bounds : (α × α) × (α × α)
  distanceKm : Option α := none
deriving DecidableEq

/-- The fields of the `trackMetadata` memo that the engine consumes
(display-only statistics are omitted; see the module docstring). -/
structure TrackMeta (α : Type*) where
  maxSpeed : α
  hasTime : Bool
  cumulativeDistances : List α
  totalDist : α
deriving DecidableEq

/-- The per-index body of the `trackMetadata` loop for `i = 1..N-1`, threading
the running cumulative distance and the defended max speed.  Returns the tail
of the cumulative-distance list (entries for indices `1..N-1`), the final
cumulative distance, and the final max speed. -/
def metaScan (d : GeoPoint α → GeoPoint α → α) (hasTime : Bool) :
    GeoPoint α → List (GeoPoint α) → α → α → List α × α × α
  | _, [], curDist, maxSpeed => ([], curDist, maxSpeed)
  | prev, p :: tl, curDist, maxSpeed =>
    let dist := d prev p
    let nd := curDist + dist
    let ms :=
      if hasTime then
        match prev.time, p.time with
        | some t1, some t2 =>
          let timeDiffHours := (t2 - t1) / 3600000
          if 0 < timeDiffHours then
            let speed := dist / timeDiffHours
            if speed < 1200 ∧ maxSpeed < speed then speed else maxSpeed
          else maxSpeed
        | _, _ => maxSpeed
      else maxSpeed
    let r := metaScan d hasTime p tl nd ms
    (nd :: r.1, r.2.1, r.2.2)

/-- The `trackMetadata` memo: `none` for a missing or empty track, otherwise
the single-pass aggregation over the points (distance function `d` stands for
the imported `getDistance`). -/
def trackMetadata (d : GeoPoint α → GeoPoint α → α) (track : TrackData α) :
    Option (TrackMeta α) :=
  match track.points with
  | [] => none
  | p :: tl =>
    let hasTime := (p :: tl).any fun q => q.time.isSome
    let r := metaScan d hasTime p tl 0 0
    some ⟨r.2.2, hasTime, 0 :: r.1, r.2.1⟩

/-- The simulation status pushed by the position-resolution effect. -/
structure SimStatus (α : Type*) where
  lat : α
  lon : α
  bearing : α
  time : Option α
  lastIndex : ℕ
deriving DecidableEq

/-- The segment-finding loop of the position-resolution effect: the first
index `i` with `dists[i] ≤ targetDist ≤ dists[i+1]` (the caller defaults to
`0` when no such index exists, as the source's `idx` stays `0`). -/
def findSegAux (t : α) : ℕ → List α → Option ℕ
  | _, [] => none
  | _, [_] => none
  | i, a :: b :: tl =>
    if a ≤ t ∧ t ≤ b then some i else findSegAux t (i + 1) (b :: tl)

/-- A placeholder point standing for a JS out-of-range array access; all
accesses below are in range on the paths the theorems take. -/
def dummyPt : GeoPoint α := ⟨0, 0, none, none⟩

/-- The simulation position-resolution effect: maps the progress fraction to
an interpolated position, segment bearing, interpolated timestamp and last
passed index.  `brg` stands for `calculateBearing` on the two segment
endpoints. -/
def resolveSimulation (d : GeoPoint α → GeoPoint α → α)
    (brg : GeoPoint α → GeoPoint α → α)
    (otrack : Option (TrackData α)) (progress : α) : Option (SimStatus α) :=
  match otrack with
  | none => none
  | some track =>
    match trackMetadata d track with
    | none => none
    | some md =>
      let targetDist := progress * md.totalDist
      let dists := md.cumulativeDistances
      let idx := (findSegAux targetDist 0 dists).getD 0
      match track.points.get? idx, track.points.get? (idx + 1) with
      | some p1, some p2 =>
        let segmentLength := dists.getD (idx + 1) 0 - dists.getD idx 0
        let segmentProgress :=
          if 0 < segmentLength then (targetDist - dists.getD idx 0) / segmentLength
          else 0
        let lat := p1.lat + (p2.lat - p1.lat) * segmentProgress
        let lon := p1.lon + (p2.lon - p1.lon) * segmentProgress
        let interpTime : Option α :=
          match p1.time, p2.time with
          | some t1, some t2 => some (t1 + (t2 - t1) * segmentProgress)
          | _, _ => none
        some ⟨lat, lon, brg p1 p2, interpTime, idx⟩
      | _, _ =>
        match track.points.getLast? with
        | some last => some ⟨last.lat, last.lon, 0, last.time, track.points.length - 1⟩
        | none => none

/-- One frame of the `animate` loop: given the track's total distance, the
playback speed (km/h) and the elapsed seconds `dt`, produce the new progress
and whether the player is still playing (`setIsSimulating(false)` on clamp). -/
def tickSim (totalDist simSpeed dt progress : α) : α × Bool :=
  let distMovedKm := simSpeed / 3600 * dt
  let currentDistanceKm := progress * totalDist
  let newDistanceKm := currentDistanceKm + distMovedKm
  if totalDist ≤ newDistanceKm then (1, false)
  else (newDistanceKm / totalDist, true)

/-- A simulation tick at the effect level: the `animate` frame runs only when
the player is playing and both the track and its metadata exist; otherwise
progress and the playing flag are unchanged. -/
def simStep (d : GeoPoint α → GeoPoint α → α) (otrack : Option (TrackData α))
    (playing : Bool) (simSpeed dt progress : α) : α × Bool :=
  match otrack with
  | none => (progress, playing)
  | some track =>
    match trackMetadata d track with
    | none => (progress, playing)
    | some md =>
      if playing then tickSim md.totalDist simSpeed dt progress
      else (progress, playing)

/-! ### Annotation engine -/

/-- Unit of the time rule. -/
inductive TimeUnit | minU | hrU
deriving DecidableEq

/-- Unit of the distance rule. -/
inductive DistUnit | kmU | miU | mU
deriving DecidableEq

/-- Unit of the stop rule. -/
inductive StopUnit | minU | secU
deriving DecidableEq

/-- Unit of the speed rule. -/
inductive SpeedUnit | kmhU | mphU
deriving DecidableEq

/-- The `annotConfig` state: four independent rule blocks. -/
structure AnnotConfig (α : Type*) where
  timeEnabled : Bool
  timeValue : α
  timeUnit : TimeUnit
  distEnabled : Bool
  distValue : α
  distUnit : DistUnit
  stopEnabled : Bool
  stopMinDuration : α
  stopUnit : StopUnit
  speedEnabled : Bool
  speedLimit : α
  speedUnit : SpeedUnit
deriving DecidableEq

/-- Marker kinds (`AnnotationMarker.type` in `types.ts`). -/
inductive MarkerType | TIME | DISTANCE | STOP | SPEED
deriving DecidableEq

/-- An annotation marker.  `value` is the numeric quantity the source renders
into the label string: the crossed threshold (km) for DISTANCE, the elapsed
ms for TIME, the segment speed in km/h for SPEED and the stop duration in
minutes for STOP. -/
structure Marker (α : Type*) where
  lat : α
  lon : α
  type : MarkerType
  value : α
deriving DecidableEq

/-- The unit conversions computed once at the start of the annotation scan. -/
structure AnnotConsts (α : Type*) where
  speedLimitKmh : α
  stopMinDurationMs : α
  distIntervalKm : α
  timeIntervalMs : α
deriving DecidableEq

/-- Computes the scan constants from the configuration, exactly as the four
`const ... =` lines at the top of the annotation effect (1.60934 km per mile,
1000 m per km, 60 min per hour). -/
def annotConsts (cfg : AnnotConfig α) : AnnotConsts α where
  speedLimitKmh :=
    if cfg.speedUnit = SpeedUnit.mphU then cfg.speedLimit * (160934 / 100000 : α)
    else cfg.speedLimit
  stopMinDurationMs :=
    (if cfg.stopUnit = StopUnit.minU then cfg.stopMinDuration * 60
     else cfg.stopMinDuration) * 1000
  distIntervalKm :=
    match cfg.distUnit with
    | DistUnit.kmU => cfg.distValue
    | DistUnit.miU => cfg.distValue * (160934 / 100000 : α)
    | DistUnit.mU => cfg.distValue / 1000
  timeIntervalMs :=
    (if cfg.timeUnit = TimeUnit.hrU then cfg.timeValue * 60 else cfg.timeValue)
      * 60 * 1000

/-- The mutable accumulators of the annotation scan. -/
structure AnnotState (α : Type*) where
  accumDist : α
  nextDistMarker : α
  nextTimeMarker : α
  stopStart : Option (α × GeoPoint α)
deriving DecidableEq

/-- JS truthiness of the `stopStartTime` accumulator: `null` (here `none`)
and the number `0` are both falsy, so an open run whose start timestamp is
exactly `0` is treated as no open run by the source's `if (stopStartTime)`
and `if (!stopStartTime)` tests. -/
def stopTruthy : Option (α × GeoPoint α) → Bool
  | none => false
  | some s => if s.1 = 0 then false else true

/-- The instantaneous speed (`speedKmh`) of a segment: distance over positive
elapsed hours, `0` when the time delta is not positive. -/
def segSpeedKmh (dist t1 t2 : α) : α :=
  let timeDiffHours := (t2 - t1) / 3600000
  if 0 < timeDiffHours then dist / timeDiffHours else 0

/-- The value of a JavaScript floating-point division on real operands:
a finite real, a signed infinity, or NaN. -/
inductive JsNum (α : Type*)
  | fin (x : α)
  | posInf
  | negInf
  | nan
deriving DecidableEq

/-- JavaScript division `a / b` on real operands, where a zero divisor
stands for JS `+0` (the only zero reachable below: it arises as
`t1 - prevTime` with `t1 = prevTime ≠ 0`): a nonzero divisor gives the
finite quotient, a positive (negative) dividend over zero gives +Infinity
(-Infinity), and `0 / 0` is NaN. -/
def jsDiv (a b : α) : JsNum α :=
  if b = 0 then
    if 0 < a then JsNum.posInf
    else if a < 0 then JsNum.negInf
    else JsNum.nan
  else JsNum.fin (a / b)

/-- The JS comparison `v <= y` for a possibly non-finite left operand:
+Infinity and NaN compare false, -Infinity compares true. -/
def JsNum.jsLe : JsNum α → α → Bool
  | JsNum.fin x, y => if x ≤ y then true else false
  | JsNum.posInf, _ => false
  | JsNum.negInf, _ => true
  | JsNum.nan, _ => false

/-- The speed detector's `prevSpeed` quantity at a segment starting at time
`t1`, as the JS number the source computes: the previous segment's distance
over its elapsed hours when a previous point exists and its timestamp is
*truthy* (nonzero), and the finite `0` otherwise.  The division is `jsDiv`:
when the previous timestamp equals `t1` the result is an infinity or NaN
(not Lean's `x / 0 = 0`), so the detector's `prevSpeed <= speedLimitKmh`
test then fails for any non-negative previous distance and no marker is
emitted. -/
def prevSegSpeedKmh (d : GeoPoint α → GeoPoint α → α)
    (pprev : Option (GeoPoint α)) (p1 : GeoPoint α) (t1 : α) : JsNum α :=
  let prevTime : α :=
    match pprev with
    | some q => match q.time with | some t0 => t0 | none => 0
    | none => 0
  let prevDist : α :=
    match pprev with
    | some q => d q p1
    | none => 0
  if pprev.isSome ∧ prevTime ≠ 0 then jsDiv prevDist ((t1 - prevTime) / 3600000)
  else JsNum.fin 0

/-- One iteration of the annotation scan over the adjacent pair `(p1, p2)`;
`pprev` is `p1`'s predecessor (for the speed detector's `prevSpeed`) and
`firstTime` the first point's timestamp.  Emits this iteration's markers in
source push order (DISTANCE, TIME, SPEED, STOP) and the updated state.  The
time/speed/stop detectors run only when both endpoints carry a timestamp and
`firstTime` is truthy (present and nonzero). -/
def annotStep (d : GeoPoint α → GeoPoint α → α) (cfg : AnnotConfig α)
    (k : AnnotConsts α) (firstTime : Option α) (pprev : Option (GeoPoint α))
    (p1 p2 : GeoPoint α) (st : AnnotState α) :
    List (Marker α) × AnnotState α :=
  let dist := d p1 p2
  let accumDist := st.accumDist + dist
  let distRes : List (Marker α) × α :=
    if cfg.distEnabled ∧ st.nextDistMarker ≤ accumDist then
      ([⟨p2.lat, p2.lon, MarkerType.DISTANCE, st.nextDistMarker⟩],
       st.nextDistMarker + k.distIntervalKm)
    else ([], st.nextDistMarker)
  match p1.time, p2.time, firstTime with
  | some t1, some t2, some ft =>
    if ft = 0 then
      (distRes.1, ⟨accumDist, distRes.2, st.nextTimeMarker, st.stopStart⟩)
    else
      let accumTimeMs := t2 - ft
      let timeRes : List (Marker α) × α :=
        if cfg.timeEnabled ∧ st.nextTimeMarker ≤ accumTimeMs then
          ([⟨p2.lat, p2.lon, MarkerType.TIME, accumTimeMs⟩],
           st.nextTimeMarker + k.timeIntervalMs)
        else ([], st.nextTimeMarker)
      let speedKmh := segSpeedKmh dist t1 t2
      let speedMarkers : List (Marker α) :=
        if cfg.speedEnabled ∧ k.speedLimitKmh < speedKmh then
          if (prevSegSpeedKmh d pprev p1 t1).jsLe k.speedLimitKmh then
            [⟨p1.lat, p1.lon, MarkerType.SPEED, speedKmh⟩]
          else []
        else []
      let stopRes : List (Marker α) × Option (α × GeoPoint α) :=
        if cfg.stopEnabled then
          if speedKmh < 1 then
            ([], if stopTruthy st.stopStart then st.stopStart else some (t1, p1))
          else
            if stopTruthy st.stopStart then
              match st.stopStart with
              | some (ts, sp) =>
                let duration := t1 - ts
                (if k.stopMinDurationMs ≤ duration then
                   [⟨sp.lat, sp.lon, MarkerType.STOP, duration / 60000⟩]
                 else [], none)
              | none => ([], none)
            else ([], st.stopStart)
        else ([], st.stopStart)
      (distRes.1 ++ timeRes.1 ++ speedMarkers ++ stopRes.1,
       ⟨accumDist, distRes.2, timeRes.2, stopRes.2⟩)
  | _, _, _ =>
    (distRes.1, ⟨accumDist, distRes.2, st.nextTimeMarker, st.stopStart⟩)

/-- The post-loop flush of a still-open stopped run against the last point's
timestamp, guarded by the same truthiness test on the run's start time. -/
def annotFlush (cfg : AnnotConfig α) (k : AnnotConsts α) (st : AnnotState α)
    (lastPoint : GeoPoint α) : List (Marker α) :=
  if cfg.stopEnabled ∧ stopTruthy st.stopStart = true then
    match st.stopStart, lastPoint.time with
    | some (ts, sp), some tLast =>
      let duration := tLast - ts
      if k.stopMinDurationMs ≤ duration then
        [⟨sp.lat, sp.lon, MarkerType.STOP, duration / 60000⟩]
      else []
    | _, _ => []
  else []

/-- The annotation loop over adjacent pairs followed by the stop flush at the
final point. -/
def annotScanAux (d : GeoPoint α → GeoPoint α → α) (cfg : AnnotConfig α)
    (k : AnnotConsts α) (firstTime : Option α) :
    Option (GeoPoint α) → GeoPoint α → List (GeoPoint α) → AnnotState α →
    List (Marker α)
  | _, p1, [], st => annotFlush cfg k st p1
  | pprev, p1, p2 :: tl, st =>
    let r := annotStep d cfg k firstTime pprev p1 p2 st
    r.1 ++ annotScanAux d cfg k firstTime (some p1) p2 tl r.2

/-- The annotation effect: empty when no track is loaded or the master
visibility flag is off; otherwise the single forward scan with the converted
constants and initial thresholds of one interval each. -/
def smartMarkers (d : GeoPoint α → GeoPoint α → α) (showMarkers : Bool)
    (cfg : AnnotConfig α) (otrack : Option (TrackData α)) : List (Marker α) :=
  match otrack with
  | none => []
  | some track =>
    if showMarkers = false then []
    else
      let k := annotConsts cfg
      match track.points with
      | [] => []
      | p :: tl =>
        annotScanAux d cfg k p.time none p tl
          ⟨0, k.distIntervalKm, k.timeIntervalMs, none⟩

/-! ### Parsers (`src/services/parser.ts`)

External libraries are passed in as parameters; a parameter of `Except`
type models a call that may throw a JS exception. -/

/-- The sum of the source's `calculateDistance` loop, written over the head
and tail of the point list: the sum of `d` over all consecutive point pairs. -/
def pairwiseDistSum (d : GeoPoint α → GeoPoint α → α) :
    GeoPoint α → List (GeoPoint α) → α
  | _, [] => 0
  | prev, p :: tl => d prev p + pairwiseDistSum d p tl

/-- The `ParseResult` union of `types.ts`. -/
inductive ParseResult (α : Type*)
  | success (data : TrackData α)
  | failure (error : String)
deriving DecidableEq

/-- The source's `calculateBounds`: coordinate-wise min/max with the
initial accumulators 90, -90, 180, -180, `[[0,0],[0,0]]` for no points. -/
def calculateBounds (points : List (GeoPoint α)) : (α × α) × (α × α) :=
  match points with
  | [] => ((0, 0), (0, 0))
  | _ =>
    let r := points.foldl
      (fun (b : α × α × α × α) p =>
        (if p.lat < b.1 then p.lat else b.1,
         if b.2.1 < p.lat then p.lat else b.2.1,
         if p.lon < b.2.2.1 then p.lon else b.2.2.1,
         if b.2.2.2 < p.lon then p.lon else b.2.2.2))
      (90, -90, 180, -180)
    ((r.1, r.2.2.1), (r.2.1, r.2.2.2))

/-- The source's `calculateDistance`: `0` for fewer than two points, else the
sum of `getDistance` over consecutive pairs (`d` stands for `getDistance`). -/
def calculateDistance (d : GeoPoint α → GeoPoint α → α)
    (points : List (GeoPoint α)) : α :=
  match points with
  | [] => 0
  | [_] => 0
  | p :: q :: tl => d p q + calculateDistance d (q :: tl)

/-- A GeoJSON geometry as consumed by the GPX/KML extraction loops; a
coordinate triple is `(lon, lat, optional ele)`. -/
inductive Geometry (α : Type*)
  | lineString (coords : List (α × α × Option α))
  | multiLineString (lines : List (List (α × α × Option α)))
  | otherGeom

/-- A GeoJSON feature: optional geometry plus the optional
`properties.coordTimes` array (entries are parsed timestamps, `none` for a
missing or falsy entry). -/
structure Feature (α : Type*) where
  geometry : Option (Geometry α)
  coordTimes : Option (List (Option α))

/-- Looks up `coordTimes[i]`, collapsing a missing array, an out-of-range
index and a falsy entry to `undefined` (the `|| undefined` in the source). -/
def coordTimeAt (f : Feature α) (i : ℕ) : Option α :=
  ((f.coordTimes.getD []).get? i).join

/-- The GPX per-feature point extraction: LineString appends each coordinate
with the `coordTimes` entry at the running global index; MultiLineString uses
a per-feature `flatIndex`.  `coord[2] || 0` becomes `getD 0`. -/
def gpxFeaturePoints (f : Feature α) (acc : List (GeoPoint α)) :
    List (GeoPoint α) :=
  match f.geometry with
  | none => acc
  | some (Geometry.lineString coords) =>
    coords.foldl
      (fun pts c =>
        pts ++ [⟨c.2.1, c.1, some (c.2.2.getD 0), coordTimeAt f pts.length⟩])
      acc
  | some (Geometry.multiLineString lines) =>
    (lines.foldl
      (fun (s : List (GeoPoint α) × ℕ) line =>
        line.foldl
          (fun (s2 : List (GeoPoint α) × ℕ) c =>
            (s2.1 ++ [⟨c.2.1, c.1, some (c.2.2.getD 0), coordTimeAt f s2.2⟩],
             s2.2 + 1))
          s)
      (acc, 0)).1
  | some Geometry.otherGeom => acc

/-- The KML per-feature point extraction: like GPX for LineString, but the
MultiLineString branch carries no timestamps. -/
def kmlFeaturePoints (f : Feature α) (acc : List (GeoPoint α)) :
    List (GeoPoint α) :=
  match f.geometry with
  | none => acc
  | some (Geometry.lineString coords) =>
    coords.foldl
      (fun pts c =>
        pts ++ [⟨c.2.1, c.1, some (c.2.2.getD 0), coordTimeAt f pts.length⟩])
      acc
  | some (Geometry.multiLineString lines) =>
    lines.foldl
      (fun pts line =>
        line.foldl
          (fun pts2 c => pts2 ++ [⟨c.2.1, c.1, some (c.2.2.getD 0), none⟩])
          pts)
      acc
  | some Geometry.otherGeom => acc

/-- `parseGPX`: the `DOMParser` + `gpx(...)` call is the `gpxLib` parameter
(it may throw, caught here as "Invalid GPX format"); then the extraction, the
empty-points check and the success record. -/
def parseGPX (gpxLib : String → Except String (List (Feature α)))
    (d : GeoPoint α → GeoPoint α → α) (content fileName : String) :
    ParseResult α :=
  match gpxLib content with
  | Except.error _ => ParseResult.failure ("Invalid GPX format")
  | Except.ok feats =>
    let points := feats.foldl (fun acc f => gpxFeaturePoints f acc) []
    match points with
    | [] => ParseResult.failure ("No valid track points found in GPX")
    | _ =>
      ParseResult.success
        ⟨fileName, points, calculateBounds points,
         some (calculateDistance d points)⟩

/-- `parseKML`: same shape as `parseGPX` with the KML extraction. -/
def parseKML (kmlLib : String → Except String (List (Feature α)))
    (d : GeoPoint α → GeoPoint α → α) (content fileName : String) :
    ParseResult α :=
  match kmlLib content with
  | Except.error _ => ParseResult.failure ("Invalid KML format")
  | Except.ok feats =>
    let points := feats.foldl (fun acc f => kmlFeaturePoints f acc) []
    match points with
    | [] => ParseResult.failure ("No valid track points found in KML")
    | _ =>
      ParseResult.success
        ⟨fileName, points, calculateBounds points,
         some (calculateDistance d points)⟩

/-- A CSV cell after `Papa.parse` with `dynamicTyping`: a number, a string,
or an empty/null cell. -/
inductive CsvCell (α : Type*)
  | num (x : α)
  | strC (s : String)
  | blank
deriving DecidableEq

/-- The result object of `Papa.parse`. -/
structure PapaResult (α : Type*) where
  errors : List String
  data : List (List (String × CsvCell α))
deriving DecidableEq

/-- ASCII lower-casing of one character (the JS `toLowerCase` restricted to
ASCII, which covers every string the parser inspects). -/
def lowerChar (c : Char) : Char :=
  if 'A' ≤ c ∧ c ≤ 'Z' then Char.ofNat (c.toNat + 32) else c

/-- JS `String.prototype.toLowerCase` (ASCII), structural over the character
list so concrete parses reduce in the kernel. -/
def jsToLower (s : String) : String := String.mk (s.data.map lowerChar)

/-- JS `String.prototype.startsWith`. -/
def jsStartsWith (s pre : String) : Bool := pre.data.isPrefixOf s.data

/-- Substring occurrence test on character lists. -/
def listContainsSub (sub : List Char) : List Char → Bool
  | [] => false
  | c :: rest => sub.isPrefixOf (c :: rest) || listContainsSub sub rest

/-- JS `String.prototype.includes` as a substring test (non-empty pattern). -/
def jsIncludes (s sub : String) : Bool := listContainsSub sub.data s.data

/-- JS `String.prototype.split` with a one-character separator (the parser
splits only on a newline or a comma). -/
def splitChar (sep : Char) : List Char → List (List Char)
  | [] => [[]]
  | c :: rest =>
    if c = sep then [] :: splitChar sep rest
    else
      match splitChar sep rest with
      | [] => [[c]]
      | l :: ls => (c :: l) :: ls

/-- `jsSplitChar` over strings. -/
def jsSplitChar (sep : Char) (s : String) : List String :=
  (splitChar sep s.data).map String.mk

/-- JS `Array.prototype.join` with a one-character separator. -/
def joinChar (sep : Char) : List (List Char) → List Char
  | [] => []
  | [l] => l
  | l :: ls => l ++ sep :: joinChar sep ls

/-- `joinChar` over strings. -/
def jsJoinChar (sep : Char) (ls : List String) : String :=
  String.mk (joinChar sep (ls.map String.data))

/-- JS `String.prototype.trim` (ASCII whitespace). -/
def jsTrim (s : String) : String :=
  String.mk
    (((s.data.dropWhile Char.isWhitespace).reverse.dropWhile
      Char.isWhitespace).reverse)

/-- The header-line search of `parseCSV`: the first of the first 20 lines
whose lowercase form contains both "latitude" and "longitude". -/
def findHeaderAux : List String → ℕ → ℕ → Option ℕ
  | [], _, _ => none
  | _, 0, _ => none
  | l :: tl, fuel + 1, i =>
    let low := jsToLower l
    if jsIncludes low ("latitude") ∧ jsIncludes low ("longitude") then some i
    else findHeaderAux tl fuel (i + 1)

/-- The last value assigned to key `key` when building the normalized row
object (later duplicate keys overwrite earlier ones in JS). -/
def lookupRow (row : List (String × CsvCell α)) (key : String) :
    Option (CsvCell α) :=
  ((row.map fun kv => (jsToLower (jsTrim kv.1), kv.2)).filter
    fun kv => kv.1 = key).getLast? |>.map fun kv => kv.2

/-- JS truthiness of a CSV cell (`0`, `""` and a missing cell are falsy). -/
def cellTruthy : Option (CsvCell α) → Bool
  | some (CsvCell.num x) => if x = 0 then false else true
  | some (CsvCell.strC s) => if s = "" then false else true
  | some CsvCell.blank => false
  | none => false

/-- The `altitude || ele || 0` elevation chain, reduced to its numeric value
(a truthy non-numeric cell is abstracted to `0`; no claim reads `ele`). -/
def csvEle (row : List (String × CsvCell α)) : α :=
  match
    (if cellTruthy (lookupRow row ("altitude")) then lookupRow row ("altitude")
     else if cellTruthy (lookupRow row ("ele")) then lookupRow row ("ele")
     else some (CsvCell.num 0)) with
  | some (CsvCell.num x) => x
  | _ => 0

/-- `parseCSV`: header-line search, `Papa.parse` (the `papaLib` parameter,
which may throw — `parseCSV` has no try/catch, so the error propagates to
`parseData`'s catch), row extraction keeping rows with numeric latitude and
longitude, the empty-points check, and the `name,`-line lookup.  `dateMs`
abstracts `Date` parsing of the raw time cell. -/
def parseCSV (papaLib : String → Except String (PapaResult α))
    (dateMs : Option (CsvCell α) → Option α)
    (d : GeoPoint α → GeoPoint α → α) (content fileName : String) :
    Except String (ParseResult α) :=
  let lines := jsSplitChar '\n' content
  let headerLineIndex := (findHeaderAux lines 20 0).getD 0
  let csvData := jsJoinChar '\n' (lines.drop headerLineIndex)
  match papaLib csvData with
  | Except.error e => Except.error e
  | Except.ok result =>
    Except.ok <|
      if result.errors ≠ [] ∧ result.data = [] then
        ParseResult.failure ("Failed to parse CSV data")
      else
        let points := result.data.foldl
          (fun acc row =>
            match lookupRow row ("latitude"), lookupRow row ("longitude") with
            | some (CsvCell.num lat), some (CsvCell.num lon) =>
              acc ++ [⟨lat, lon, some (csvEle row), dateMs (lookupRow row ("time"))⟩]
            | _, _ => acc)
          []
        match points with
        | [] =>
          ParseResult.failure ("No valid Latitude/Longitude columns found in CSV")
        | _ =>
          let finalName :=
            if 0 < headerLineIndex then
              match (lines.take headerLineIndex).find?
                  (fun l => jsStartsWith (jsToLower l) ("name,")) with
              | some nameLine =>
                let parts := jsSplitChar ',' nameLine
                if 1 < parts.length then
                  jsTrim (jsJoinChar ',' (parts.drop 1))
                else fileName
              | none => fileName
            else fileName
          ParseResult.success
            ⟨finalName, points, calculateBounds points,
             some (calculateDistance d points)⟩

/-- The body of `parseData`'s try block: trim, format detection by prefix and
substring, dispatch.  An `Except.error` models an uncaught JS exception
escaping the dispatched parser. -/
def parseDataBody (gpxLib kmlLib : String → Except String (List (Feature α)))
    (papaLib : String → Except String (PapaResult α))
    (dateMs : Option (CsvCell α) → Option α)
    (d : GeoPoint α → GeoPoint α → α) (content0 fileName : String) :
    Except String (ParseResult α) :=
  let content := jsTrim content0
  if jsStartsWith content ("<") ∧ jsIncludes content ("<gpx") then
    Except.ok (parseGPX gpxLib d content fileName)
  else if jsStartsWith content ("<") ∧ jsIncludes content ("<kml") then
    Except.ok (parseKML kmlLib d content fileName)
  else parseCSV papaLib dateMs d content fileName

/-- `parseData` with its try/catch: any exception from the body becomes a
failure result (`e.message || 'Unknown parsing error'`), so the function as a
whole never throws — its result is always `Except.ok` of a `ParseResult`. -/
def parseData (gpxLib kmlLib : String → Except String (List (Feature α)))
    (papaLib : String → Except String (PapaResult α))
    (dateMs : Option (CsvCell α) → Option α)
    (d : GeoPoint α → GeoPoint α → α) (content0 fileName : String) :
    Except String (ParseResult α) :=
  match parseDataBody gpxLib kmlLib papaLib dateMs d content0 fileName with
  | Except.ok r => Except.ok r
  | Except.error msg =>
    Except.ok (ParseResult.failure
      (if msg = "" then "Unknown parsing error" else msg))

/-! ### Spec-side comparison definition and concrete inputs -/

/-- Modelled from the spec's words (for comparison with `trackMetadata`):
the list of instantaneous speeds of "timestamped consecutive segments with
positive time delta", restricted to speeds strictly below 1200 km/h. -/
def specSegSpeeds (d : GeoPoint α → GeoPoint α → α) :
    GeoPoint α → List (GeoPoint α) → List α
  | _, [] => []
  | prev, p :: tl =>
    (match prev.time, p.time with
     | some t1, some t2 =>
       let timeDiffHours := (t2 - t1) / 3600000
       if 0 < timeDiffHours then
         let speed := d prev p / timeDiffHours
         if speed < 1200 then [speed] else []
       else []
     | _, _ => []) ++ specSegSpeeds d p tl

/-- A configuration with only the speed rule enabled (limit in km/h), other
rule blocks at the source's defaults. -/
def speedOnlyCfg (limit : α) : AnnotConfig α :=
  ⟨false, 10, TimeUnit.minU, false, 1, DistUnit.kmU,
   false, 5, StopUnit.minU, true, limit, SpeedUnit.kmhU⟩

/-- A configuration with only the stop rule enabled (minimum duration in
minutes), other rule blocks at the source's defaults. -/
def stopOnlyCfg (minDur : α) : AnnotConfig α :=
  ⟨false, 10, TimeUnit.minU, false, 1, DistUnit.kmU,
   true, minDur, StopUnit.minU, false, 100, SpeedUnit.kmhU⟩

/-- A two-point untimed track (equator, one degree of longitude apart). -/
def cexTrack1 : TrackData ℝ :=
  ⟨"cex1", [⟨0, 0, none, none⟩, ⟨0, 1, none, none⟩], ((0, 0), (0, 1)), none⟩

/-- A single-point track: its metadata exists and has total distance 0. -/
def onePointTrack : TrackData ℝ :=
  ⟨"single", [⟨0, 0, none, none⟩], ((0, 0), (0, 0)), none⟩

/-- A two-point pole-hop track: its only segment covers half a great circle
(6371·π km) in one minute — far beyond any speed limit — but the first
point's timestamp is exactly the epoch (0 ms), which JS numeric truthiness
treats as missing. -/
def cexSpeedTrack : TrackData ℝ :=
  ⟨"speed-epoch", [⟨-90, 0, none, some 0⟩, ⟨90, 0, none, some 60000⟩],
   ((-90, 0), (90, 0)), none⟩

/-- The longitude-difference distance function used to build concrete
rational instances of the spec's scenarios. -/
def lonDist : GeoPoint ℚ → GeoPoint ℚ → ℚ := fun a b => |b.lon - a.lon|

/-- A concrete instance of the spec's speed-spike scenario: five points at
one-minute spacing with nonzero timestamps; `lonDist` gives the segment
distances 1 km, 2 km, 1 km, 1 km, so the segment speeds are 60, 120, 60 and
60 km/h. -/
def scenarioSpeedTrack : TrackData ℚ :=
  ⟨"spike",
   [⟨0, 0, none, some 60000⟩, ⟨0, 1, none, some 120000⟩,
    ⟨0, 3, none, some 180000⟩, ⟨0, 4, none, some 240000⟩,
    ⟨0, 5, none, some 300000⟩],
   ((0, 0), (0, 5)), none⟩

/-- A concrete instance of the spec's stop scenario: four points with
nonzero timestamps; the middle segment covers 0 km in 10 minutes and is
bounded by 60 km/h segments on both sides. -/
def scenarioStopTrack : TrackData ℚ :=
  ⟨"stop",
   [⟨0, 0, none, some 60000⟩, ⟨0, 1, none, some 120000⟩,
    ⟨0, 1, none, some 720000⟩, ⟨0, 2, none, some 780000⟩],
   ((0, 0), (0, 2)), none⟩

/-- A two-point stationary track whose first timestamp is exactly the epoch
(0 ms) and whose second is 10 minutes later. -/
def epochStopTrack : TrackData ℝ :=
  ⟨"epoch", [⟨0, 0, none, some 0⟩, ⟨0, 0, none, some 600000⟩],
   ((0, 0), (0, 0)), none⟩

/-! ### Real geometry primitives

`getDistance` (haversine, parser.ts) and `calculateBearing` (sidebar) use
JavaScript's transcendental math; they are embedded over `ℝ`. -/

noncomputable section

open Real

/-- Degrees to radians (`toRad` in the sidebar). -/
def toRad (deg : ℝ) : ℝ := deg * Real.pi / 180

/-- Radians to degrees (`toDeg` in the sidebar). -/
def toDeg (rad : ℝ) : ℝ := rad * 180 / Real.pi

/-- JavaScript's `Math.atan2(y, x)` on real inputs (signed zeros do not exist
in `ℝ`; `atan2(0, 0) = 0`). -/
def jsAtan2 (y x : ℝ) : ℝ :=
  if 0 < x then Real.arctan (y / x)
  else if x < 0 ∧ 0 ≤ y then Real.arctan (y / x) + Real.pi
  else if x < 0 then Real.arctan (y / x) - Real.pi
  else if 0 < y then Real.pi / 2
  else if y < 0 then -(Real.pi / 2)
  else 0

/-- JavaScript truncation toward zero, as used by the `%` operator. -/
def jsTrunc (x : ℝ) : ℤ := if 0 ≤ x then ⌊x⌋ else ⌈x⌉

/-- JavaScript's remainder operator `a % n` on numbers: `a - n * trunc (a/n)`
(the sign follows the dividend). -/
def jsMod (a n : ℝ) : ℝ := a - n * (jsTrunc (a / n) : ℝ)

/-- The sidebar's `calculateBearing`: forward azimuth in degrees, normalized
by `(brng + 360) % 360`. -/
def calculateBearing (startLat startLng destLat destLng : ℝ) : ℝ :=
  let startLatRad := toRad startLat
  let startLngRad := toRad startLng
  let destLatRad := toRad destLat
  let destLngRad := toRad destLng
  let y := Real.sin (destLngRad - startLngRad) * Real.cos destLatRad
  let x := Real.cos startLatRad * Real.sin destLatRad -
    Real.sin startLatRad * Real.cos destLatRad * Real.cos (destLngRad - startLngRad)
  let brng := toDeg (jsAtan2 y x)
  jsMod (brng + 360) 360

/-- `calculateBearing` on the two endpoints of a segment, as the simulation
effect calls it. -/
def bearingOfSegment (p1 p2 : GeoPoint ℝ) : ℝ :=
  calculateBearing p1.lat p1.lon p2.lat p2.lon

/-- Degrees to radians (`deg2rad` in parser.ts). -/
def deg2rad (deg : ℝ) : ℝ := deg * (Real.pi / 180)

/-- The haversine `getDistance` of parser.ts: Earth radius 6371 km. -/
def getDistance (p1 p2 : GeoPoint ℝ) : ℝ :=
  let dLat := deg2rad (p2.lat - p1.lat)
  let dLon := deg2rad (p2.lon - p1.lon)
  let a := Real.sin (dLat / 2) * Real.sin (dLat / 2) +
    Real.cos (deg2rad p1.lat) * Real.cos (deg2rad p2.lat) *
    Real.sin (dLon / 2) * Real.sin (dLon / 2)
  let c := 2 * jsAtan2 (Real.sqrt a) (Real.sqrt (1 - a))
  6371 * c

end

/-! ### Helper lemmas about the metadata scan and the segment search -/

theorem chain'_of_forall {β : Type*} {R : β → β → Prop} (h : ∀ a b, R a b) :
    ∀ l : List β, List.Chain' R l
  | [] => List.chain'_nil
  | [_] => List.chain'_singleton _
  | a :: b :: l => List.chain'_cons.mpr ⟨h a b, chain'_of_forall h (b :: l)⟩

theorem max_eq_ite_lt (a b : α) : max a b = if a < b then b else a := by
  rcases le_or_lt b a with h | h
  · rw [if_neg (not_lt.2 h), max_eq_left h]
  · rw [if_pos h, max_eq_right h.le]

theorem metaScan_fst_length (d : GeoPoint α → GeoPoint α → α) (ht : Bool) :
    ∀ (prev : GeoPoint α) (rest : List (GeoPoint α)) (cur ms : α),
    ((metaScan d ht prev rest cur ms).1).length = rest.length := by
  intro prev rest
  induction rest generalizing prev with
  | nil => intro cur ms; rfl
  | cons p tl ih => intro cur ms; simp [metaScan, ih]

theorem metaScan_totalDist_getLastD (d : GeoPoint α → GeoPoint α → α) (ht : Bool) :
    ∀ (prev : GeoPoint α) (rest : List (GeoPoint α)) (cur ms : α),
    (metaScan d ht prev rest cur ms).2.1 =
      ((metaScan d ht prev rest cur ms).1).getLastD cur := by
  intro prev rest
  induction rest generalizing prev with
  | nil => intro cur ms; rfl
  | cons p tl ih =>
    intro cur ms
    simp only [metaScan, List.getLastD_cons]
    exact ih p _ _

theorem metaScan_totalDist_sum (d : GeoPoint α → GeoPoint α → α) (ht : Bool) :
    ∀ (prev : GeoPoint α) (rest : List (GeoPoint α)) (cur ms : α),
    (metaScan d ht prev rest cur ms).2.1 = cur + pairwiseDistSum d prev rest := by
  intro prev rest
  induction rest generalizing prev with
  | nil => intro cur ms; simp [metaScan, pairwiseDistSum]
  | cons p tl ih =>
    intro cur ms
    simp only [metaScan, pairwiseDistSum]
    rw [ih p]
    ring

theorem metaScan_chain_le (d : GeoPoint α → GeoPoint α → α) (ht : Bool) :
    ∀ (prev : GeoPoint α) (rest : List (GeoPoint α)) (cur ms : α),
    List.Chain' (fun a b => 0 ≤ d a b) (prev :: rest) →
    List.Chain' (· ≤ ·) (cur :: (metaScan d ht prev rest cur ms).1) := by
  intro prev rest
  induction rest generalizing prev with
  | nil => intro cur ms _; simp [metaScan]
  | cons p tl ih =>
    intro cur ms hch
    rcases List.chain'_cons.mp hch with ⟨h0, hch'⟩
    simp only [metaScan]
    exact List.chain'_cons.mpr ⟨le_add_of_nonneg_right h0, ih p _ _ hch'⟩

theorem metaScan_chain_lt (d : GeoPoint α → GeoPoint α → α) (ht : Bool) :
    ∀ (prev : GeoPoint α) (rest : List (GeoPoint α)) (cur ms : α),
    List.Chain' (fun a b => 0 < d a b) (prev :: rest) →
    List.Chain' (· < ·) (cur :: (metaScan d ht prev rest cur ms).1) := by
  intro prev rest
  induction rest generalizing prev with
  | nil => intro cur ms _; simp [metaScan]
  | cons p tl ih =>
    intro cur ms hch
    rcases List.chain'_cons.mp hch with ⟨h0, hch'⟩
    simp only [metaScan]
    exact List.chain'_cons.mpr ⟨lt_add_of_pos_right cur h0, ih p _ _ hch'⟩

theorem metaScan_maxSpeed_foldl (d : GeoPoint α → GeoPoint α → α) (ht : Bool) :
    ∀ (prev : GeoPoint α) (rest : List (GeoPoint α)) (cur ms : α),
    (∀ q ∈ prev :: rest, q.time.isSome = true → ht = true) →
    (metaScan d ht prev rest cur ms).2.2 = (specSegSpeeds d prev rest).foldl max ms := by
  intro prev rest
  induction rest generalizing prev with
  | nil => intro cur ms _; rfl
  | cons p tl ih =>
    intro cur ms hht
    have hht' : ∀ q ∈ p :: tl, q.time.isSome = true → ht = true := by
      intro q hq
      exact hht q (List.mem_cons_of_mem prev hq)
    simp only [metaScan, specSegSpeeds, List.foldl_append]
    rcases hp1 : prev.time with _ | t1 <;> rcases hp2 : p.time with _ | t2
    · simpa using ih p _ _ hht'
    · simpa using ih p _ _ hht'
    · simpa using ih p _ _ hht'
    · have hhtT : ht = true :=
        hht prev (List.mem_cons_self prev (p :: tl)) (by simp [hp1])
      subst hhtT
      simp only [if_true]
      by_cases htd : 0 < (t2 - t1) / 3600000
      · rw [if_pos htd, if_pos htd]
        by_cases hsp : d prev p / ((t2 - t1) / 3600000) < 1200
        · rw [if_pos hsp]
          rw [show (if d prev p / ((t2 - t1) / 3600000) < 1200 ∧
                ms < d prev p / ((t2 - t1) / 3600000) then
                d prev p / ((t2 - t1) / 3600000) else ms) =
              max ms (d prev p / ((t2 - t1) / 3600000)) by
            rw [max_eq_ite_lt]
            by_cases hm : ms < d prev p / ((t2 - t1) / 3600000)
            · rw [if_pos ⟨hsp, hm⟩, if_pos hm]
            · rw [if_neg (fun h => hm h.2), if_neg hm]]
          simpa using ih p _ _ hht'
        · rw [if_neg hsp,
            if_neg (fun h : _ ∧ _ => hsp h.1)]
          simpa using ih p _ _ hht'
      · rw [if_neg htd, if_neg htd]
        simpa using ih p _ _ hht'

theorem specSegSpeeds_lt_1200 (d : GeoPoint α → GeoPoint α → α) :
    ∀ (prev : GeoPoint α) (rest : List (GeoPoint α)) (x : α),
    x ∈ specSegSpeeds d prev rest → x < 1200 := by
  intro prev rest
  induction rest generalizing prev with
  | nil => intro x hx; simp [specSegSpeeds] at hx
  | cons p tl ih =>
    intro x hx
    simp only [specSegSpeeds, List.mem_append] at hx
    rcases hx with hx | hx
    · rcases hp1 : prev.time with _ | t1 <;> rcases hp2 : p.time with _ | t2 <;>
        simp only [hp1, hp2] at hx
      · simp at hx
      · simp at hx
      · simp at hx
      · by_cases htd : 0 < (t2 - t1) / 3600000
        · rw [if_pos htd] at hx
          by_cases hsp : d prev p / ((t2 - t1) / 3600000) < 1200
          · rw [if_pos hsp] at hx
            rcases List.mem_singleton.mp hx with rfl
            exact hsp
          · rw [if_neg hsp] at hx; simp at hx
        · rw [if_neg htd] at hx; simp at hx
    · exact ih p x hx

theorem foldl_max_lt (B : α) :
    ∀ (l : List α) (b : α), b < B → (∀ x ∈ l, x < B) → l.foldl max b < B := by
  intro l
  induction l with
  | nil => intro b hb _; exact hb
  | cons x tl ih =>
    intro b hb hl
    exact ih (max b x) (max_lt hb (hl x (List.mem_cons_self x tl)))
      (fun y hy => hl y (List.mem_cons_of_mem x hy))

theorem chain_lt_getLast? :
    ∀ (l : List α) (b : α), List.Chain' (· < ·) (b :: l) →
    ∀ x, l.getLast? = some x → b < x := by
  intro l
  induction l with
  | nil => intro b _ x hx; simp at hx
  | cons c tl ih =>
    intro b hch x hx
    rcases List.chain'_cons.mp hch with ⟨hbc, hch'⟩
    cases tl with
    | nil =>
      simp at hx
      subst hx
      exact hbc
    | cons e tl' =>
      rw [List.getLast?_cons_cons] at hx
      exact hbc.trans (ih c hch' x hx)

theorem findSegAux_last :
    ∀ (tl : List α) (a b : α) (i : ℕ) (x : α),
    List.Chain' (· < ·) (a :: b :: tl) → (b :: tl).getLast? = some x →
    findSegAux x i (a :: b :: tl) = some (i + tl.length) ∧
    (a :: b :: tl).getD tl.length 0 < x ∧
    (a :: b :: tl).getD (tl.length + 1) 0 = x := by
  intro tl
  induction tl with
  | nil =>
    intro a b i x hch hx
    simp at hx
    subst hx
    rcases List.chain'_cons.mp hch with ⟨hab, _⟩
    refine ⟨?_, by simpa using hab, by simp⟩
    simp [findSegAux, le_of_lt hab]
  | cons c tl' ih =>
    intro a b i x hch hx
    rcases List.chain'_cons.mp hch with ⟨hab, hch'⟩
    rw [List.getLast?_cons_cons] at hx
    have hbx : b < x := chain_lt_getLast? (c :: tl') b hch' x hx
    have hrec := ih b c (i + 1) x hch' (by simpa using hx)
    refine ⟨?_, ?_, ?_⟩
    · rw [findSegAux, if_neg (fun h => absurd h.2 (not_le.2 hbx)), hrec.1]
      congr 1
      simp only [List.length_cons]
      omega
    · simpa only [List.length_cons, List.getD_cons_succ] using hrec.2.1
    · simpa only [List.length_cons, List.getD_cons_succ] using hrec.2.2

theorem calculateDistance_eq_pairwiseDistSum (d : GeoPoint α → GeoPoint α → α) :
    ∀ (p : GeoPoint α) (tl : List (GeoPoint α)),
    calculateDistance d (p :: tl) = pairwiseDistSum d p tl := by
  intro p tl
  induction tl generalizing p with
  | nil => rfl
  | cons q tl' ih => simp [calculateDistance, pairwiseDistSum, ih]

/-! ### Geometry lemmas -/

theorem jsAtan2_nonneg {y x : ℝ} (hy : 0 ≤ y) : 0 ≤ jsAtan2 y x := by
  unfold jsAtan2
  split_ifs with h1 h2 h3 h4 h5
  · calc (0 : ℝ) = Real.arctan 0 := Real.arctan_zero.symm
    _ ≤ Real.arctan (y / x) :=
      Real.arctan_strictMono.monotone (div_nonneg hy h1.le)
  · linarith [Real.neg_pi_div_two_lt_arctan (y / x), Real.pi_pos]
  · exact absurd ⟨h3, hy⟩ h2
  · linarith [Real.pi_pos]
  · linarith
  · exact le_refl 0

theorem jsAtan2_le_pi (y x : ℝ) : jsAtan2 y x ≤ Real.pi := by
  unfold jsAtan2
  split_ifs with h1 h2 h3 h4 h5
  · linarith [Real.arctan_lt_pi_div_two (y / x), Real.pi_pos]
  · have harc : Real.arctan (y / x) ≤ 0 := by
      calc Real.arctan (y / x) ≤ Real.arctan 0 :=
        Real.arctan_strictMono.monotone (div_nonpos_of_nonneg_of_nonpos h2.2 h2.1.le)
      _ = 0 := Real.arctan_zero
    linarith
  · linarith [Real.arctan_lt_pi_div_two (y / x), Real.pi_pos]
  · linarith [Real.pi_pos]
  · linarith [Real.pi_pos]
  · linarith [Real.pi_pos]

theorem neg_pi_le_jsAtan2 (y x : ℝ) : -Real.pi ≤ jsAtan2 y x := by
  unfold jsAtan2
  split_ifs with h1 h2 h3 h4 h5
  · linarith [Real.neg_pi_div_two_lt_arctan (y / x), Real.pi_pos]
  · linarith [Real.neg_pi_div_two_lt_arctan (y / x), Real.pi_pos]
  · have hy : y < 0 := by
      by_contra hy0
      exact h2 ⟨h3, not_lt.mp hy0⟩
    have harc : 0 ≤ Real.arctan (y / x) := by
      calc (0 : ℝ) = Real.arctan 0 := Real.arctan_zero.symm
      _ ≤ Real.arctan (y / x) :=
        Real.arctan_strictMono.monotone (le_of_lt (div_pos_of_neg_of_neg hy h3))
    linarith
  · linarith [Real.pi_pos]
  · linarith [Real.pi_pos]
  · linarith [Real.pi_pos]

theorem jsMod_nonneg_lt {a n : ℝ} (ha : 0 ≤ a) (hn : 0 < n) :
    0 ≤ jsMod a n ∧ jsMod a n < n := by
  unfold jsMod jsTrunc
  rw [if_pos (div_nonneg ha hn.le)]
  have key : n * (a / n) = a := mul_div_cancel₀ a hn.ne'
  have h1 : n * (⌊a / n⌋ : ℝ) ≤ n * (a / n) :=
    mul_le_mul_of_nonneg_left (Int.floor_le (a / n)) hn.le
  have h2 : n * (a / n) < n * ((⌊a / n⌋ : ℝ) + 1) :=
    mul_lt_mul_of_pos_left (Int.lt_floor_add_one (a / n)) hn
  constructor <;> nlinarith

theorem getDistance_nonneg (p1 p2 : GeoPoint ℝ) : 0 ≤ getDistance p1 p2 := by
  unfold getDistance
  have h := jsAtan2_nonneg (x :=
    Real.sqrt (1 - (Real.sin (deg2rad (p2.lat - p1.lat) / 2) *
      Real.sin (deg2rad (p2.lat - p1.lat) / 2) +
      Real.cos (deg2rad p1.lat) * Real.cos (deg2rad p2.lat) *
      Real.sin (deg2rad (p2.lon - p1.lon) / 2) *
      Real.sin (deg2rad (p2.lon - p1.lon) / 2))))
    (Real.sqrt_nonneg (Real.sin (deg2rad (p2.lat - p1.lat) / 2) *
      Real.sin (deg2rad (p2.lat - p1.lat) / 2) +
      Real.cos (deg2rad p1.lat) * Real.cos (deg2rad p2.lat) *
      Real.sin (deg2rad (p2.lon - p1.lon) / 2) *
      Real.sin (deg2rad (p2.lon - p1.lon) / 2)))
  nlinarith

theorem deg2rad_180 : deg2rad 180 = Real.pi := by
  unfold deg2rad
  ring

theorem deg2rad_neg_180 : deg2rad (-180) = -Real.pi := by
  unfold deg2rad
  ring

theorem deg2rad_90 : deg2rad 90 = Real.pi / 2 := by
  unfold deg2rad
  ring

theorem deg2rad_neg_90 : deg2rad (-90) = -(Real.pi / 2) := by
  unfold deg2rad
  ring

theorem jsAtan2_one_zero : jsAtan2 1 0 = Real.pi / 2 := by
  unfold jsAtan2
  norm_num

/-- Any segment from the south pole to the north pole is a half great
circle: haversine `a = 1`, central angle `π`. -/
theorem getDistance_pole_up (l1 l2 : ℝ) (e1 e2 t1 t2 : Option ℝ) :
    getDistance ⟨-90, l1, e1, t1⟩ ⟨90, l2, e2, t2⟩ = 6371 * Real.pi := by
  unfold getDistance
  simp only
  rw [show (90 : ℝ) - (-90) = 180 by norm_num, deg2rad_180, deg2rad_neg_90,
    Real.cos_neg, Real.cos_pi_div_two]
  rw [Real.sin_pi_div_two]
  norm_num
  rw [jsAtan2_one_zero]
  ring

/-- A zero-length segment: `getDistance` of two points with equal
coordinates is 0 (`atan2(0, 1) = arctan 0 = 0`). -/
theorem getDistance_self_coords (la lo : ℝ) (e1 e2 t1 t2 : Option ℝ) :
    getDistance ⟨la, lo, e1, t1⟩ ⟨la, lo, e2, t2⟩ = 0 := by
  unfold getDistance
  simp only [sub_self]
  rw [show deg2rad 0 = 0 by unfold deg2rad; ring]
  norm_num
  rw [show jsAtan2 0 1 = 0 by unfold jsAtan2; norm_num [Real.arctan_zero]]

theorem jsAtan2_zero_zero : jsAtan2 0 0 = 0 := by
  unfold jsAtan2
  norm_num

theorem toDeg_zero : toDeg 0 = 0 := by
  unfold toDeg
  simp

theorem jsMod_360_360 : jsMod 360 360 = 0 := by
  unfold jsMod jsTrunc
  rw [div_self (by norm_num : (360 : ℝ) ≠ 0), if_pos (by norm_num : (0 : ℝ) ≤ 1)]
  norm_num

theorem calculateBearing_norm_bounds (y x : ℝ) :
    0 ≤ jsMod (toDeg (jsAtan2 y x) + 360) 360 ∧
    jsMod (toDeg (jsAtan2 y x) + 360) 360 < 360 := by
  have h1 := neg_pi_le_jsAtan2 y x
  have hπ := Real.pi_pos
  have hbr : -180 ≤ toDeg (jsAtan2 y x) := by
    unfold toDeg
    rw [le_div_iff₀ hπ]
    nlinarith
  exact jsMod_nonneg_lt (by linarith) (by norm_num)

/-! ### Claim theorems -/

/-- Claim C8: for every pair of points (all real coordinates are finite in
this model), `calculateBearing` returns a value in the interval from 0
inclusive to 360 exclusive; and for coincident points it returns the
sentinel 0, never NaN (the `atan2(0, 0) = 0` branch of `jsAtan2`). -/
theorem claim8_bearing_range_and_sentinel :
    (∀ slat slng dlat dlng : ℝ,
      0 ≤ calculateBearing slat slng dlat dlng ∧
      calculateBearing slat slng dlat dlng < 360) ∧
    (∀ lat lon : ℝ, calculateBearing lat lon lat lon = 0) := by
  constructor
  · intro slat slng dlat dlng
    unfold calculateBearing
    exact calculateBearing_norm_bounds _ _
  · intro lat lon
    unfold calculateBearing
    simp only [sub_self, Real.sin_zero, Real.cos_zero, zero_mul, mul_one]
    rw [show Real.cos (toRad lat) * Real.sin (toRad lat) -
        Real.sin (toRad lat) * Real.cos (toRad lat) = 0 by ring,
      jsAtan2_zero_zero, toDeg_zero, zero_add, jsMod_360_360]

/-- Claim C3: while playing on a track with positive total distance, a tick
with `dt ≥ 0` produces exactly the progress
`(progress * totalDist + (speed/3600) * dt) / totalDist` clamped to 1, the
player transitions to idle exactly when the new distance reaches or exceeds
the total distance, and consequently progress stays in the unit interval and
never decreases (tick contract of `animate`). -/
theorem claim3_tick_contract (total speed dt p : α)
    (htotal : 0 < total) (hdt : 0 ≤ dt) (hspeed : 0 ≤ speed)
    (hp0 : 0 ≤ p) (hp1 : p ≤ 1) :
    (tickSim total speed dt p).1 =
      min ((p * total + speed / 3600 * dt) / total) 1 ∧
    ((tickSim total speed dt p).2 = false ↔
      total ≤ p * total + speed / 3600 * dt) ∧
    p ≤ (tickSim total speed dt p).1 ∧
    0 ≤ (tickSim total speed dt p).1 ∧ (tickSim total speed dt p).1 ≤ 1 := by
  have hδ : 0 ≤ speed / 3600 * dt :=
    mul_nonneg (div_nonneg hspeed (by norm_num)) hdt
  unfold tickSim
  by_cases h : total ≤ p * total + speed / 3600 * dt
  · rw [if_pos h]
    have hone : 1 ≤ (p * total + speed / 3600 * dt) / total :=
      (one_le_div htotal).mpr h
    refine ⟨by rw [min_eq_right hone], by simpa using h, hp1, by norm_num, le_refl 1⟩
  · rw [if_neg h]
    push_neg at h
    have hlt : (p * total + speed / 3600 * dt) / total < 1 :=
      (div_lt_one htotal).mpr h
    refine ⟨by rw [min_eq_left hlt.le], by simp [h.not_le], ?_, ?_, hlt.le⟩
    · have : p * total ≤ p * total + speed / 3600 * dt := le_add_of_nonneg_right hδ
      calc p = p * total / total := by field_simp
      _ ≤ (p * total + speed / 3600 * dt) / total :=
        (div_le_div_iff_of_pos_right htotal).mpr this
    · exact div_nonneg (by nlinarith) htotal.le

/-- Witness for C3 at concrete rational inputs. -/
theorem claim3_witness :
    (0 : ℚ) < 2 ∧
    (tickSim (2 : ℚ) 3600 1 0).1 = min ((0 * 2 + 3600 / 3600 * 1) / 2) 1 :=
  ⟨by norm_num,
   (claim3_tick_contract 2 3600 1 0 (by norm_num) (by norm_num) (by norm_num)
     (by norm_num) (by norm_num)).1⟩

/-- Claim C2 counterexample: on a loaded single-point track the total
distance is 0, yet a tick while playing is not a no-op — it sets progress to
1 and stops the player (the clamp branch fires because
`newDistanceKm = 0 ≥ 0 = totalDist`). -/
theorem claim2_counterexample :
    (trackMetadata getDistance onePointTrack).map TrackMeta.totalDist =
      some 0 ∧
    simStep getDistance (some onePointTrack) true 100 1 0 = ((1 : ℝ), false) := by
  have hmd : trackMetadata getDistance onePointTrack =
      some ⟨0, false, [0], 0⟩ := rfl
  constructor
  · rw [hmd]; rfl
  · simp only [simStep, hmd, if_true]
    unfold tickSim
    rw [if_pos (by norm_num : (0 : ℝ) ≤ 0 * 0 + 100 / 3600 * 1)]

/-- Claim C2 (amended): a tick while playing is a no-op when no track is
loaded or the track has no points (no metadata); but on a loaded track with
`totalDistanceKm = 0` a tick while playing sets progress to 1 and
transitions the player to idle instead of leaving the state unchanged. -/
theorem claim2_amended_zero_distance_tick :
    (∀ (d : GeoPoint α → GeoPoint α → α) (playing : Bool) (speed dt p : α),
      simStep d none playing speed dt p = (p, playing)) ∧
    (∀ (d : GeoPoint α → GeoPoint α → α) (track : TrackData α)
      (playing : Bool) (speed dt p : α), track.points = [] →
      simStep d (some track) playing speed dt p = (p, playing)) ∧
    (∀ (d : GeoPoint α → GeoPoint α → α) (track : TrackData α)
      (md : TrackMeta α) (speed dt p : α),
      trackMetadata d track = some md → md.totalDist = 0 →
      0 ≤ speed → 0 ≤ dt →
      simStep d (some track) true speed dt p = (1, false)) := by
  refine ⟨fun d playing speed dt p => rfl, ?_, ?_⟩
  · intro d track playing speed dt p hpts
    simp [simStep, trackMetadata, hpts]
  · intro d track md speed dt p hmd h0 hs hdt
    simp only [simStep, hmd, if_true]
    unfold tickSim
    rw [h0]
    have hδ : (0 : α) ≤ speed / 3600 * dt :=
      mul_nonneg (div_nonneg hs (by norm_num)) hdt
    rw [if_pos (by nlinarith : (0 : α) ≤ p * 0 + speed / 3600 * dt)]

/-- Witness for C2 (amended) at concrete rational inputs. -/
theorem claim2_witness :
    trackMetadata (fun _ _ => (0 : ℚ))
      ⟨"w", [⟨0, 0, none, none⟩], ((0, 0), (0, 0)), none⟩ =
      some ⟨0, false, [0], 0⟩ ∧
    simStep (fun _ _ => (0 : ℚ))
      (some ⟨"w", [⟨0, 0, none, none⟩], ((0, 0), (0, 0)), none⟩) true 5 1 0 =
      (1, false) :=
  ⟨rfl,
   claim2_amended_zero_distance_tick.2.2 (fun _ _ => 0) _ ⟨0, false, [0], 0⟩
     5 1 0 rfl rfl (by norm_num) (by norm_num)⟩

/-- Claim C9: `parseData` always returns a `ParseResult` value to its caller
and never lets an exception escape: for every input and every behaviour of
the external parsing libraries (including throwing ones), the result is
`Except.ok` of some `ParseResult`. -/
theorem claim9_parseData_total
    (gpxLib kmlLib : String → Except String (List (Feature α)))
    (papaLib : String → Except String (PapaResult α))
    (dateMs : Option (CsvCell α) → Option α)
    (d : GeoPoint α → GeoPoint α → α) (content fileName : String) :
    ∃ r : ParseResult α,
      parseData gpxLib kmlLib papaLib dateMs d content fileName =
        Except.ok r := by
  unfold parseData
  cases parseDataBody gpxLib kmlLib papaLib dateMs d content fileName with
  | ok r => exact ⟨r, rfl⟩
  | error msg => exact ⟨_, rfl⟩

/-- Claim C6: for a non-empty track the aggregator's `maxSpeed` equals the
maximum (as a `foldl max 0`) of the instantaneous speeds of timestamped
consecutive segments with positive time delta, restricted to speeds strictly
below 1200 km/h (`specSegSpeeds` follows the spec's wording), and it is
always strictly below 1200. -/
theorem claim6_max_speed_defended (track : TrackData ℝ) (p : GeoPoint ℝ)
    (tl : List (GeoPoint ℝ)) (hpts : track.points = p :: tl)
    (md : TrackMeta ℝ) (hmd : trackMetadata getDistance track = some md) :
    md.maxSpeed = (specSegSpeeds getDistance p tl).foldl max 0 ∧
    md.maxSpeed < 1200 := by
  simp only [trackMetadata, hpts, Option.some.injEq] at hmd
  subst hmd
  have hfold : (metaScan getDistance ((p :: tl).any fun q => q.time.isSome)
      p tl 0 0).2.2 = (specSegSpeeds getDistance p tl).foldl max 0 :=
    metaScan_maxSpeed_foldl getDistance _ p tl 0 0
      (fun q hq h2 => List.any_eq_true.mpr ⟨q, hq, h2⟩)
  refine ⟨hfold, ?_⟩
  show (metaScan getDistance ((p :: tl).any fun q => q.time.isSome)
      p tl 0 0).2.2 < 1200
  rw [hfold]
  exact foldl_max_lt 1200 _ 0 (by norm_num)
    (fun x hx => specSegSpeeds_lt_1200 getDistance p tl x hx)

/-- Witness for C6 on a concrete single-point real track. -/
theorem claim6_witness :
    onePointTrack.points = [(⟨0, 0, none, none⟩ : GeoPoint ℝ)] ∧
    trackMetadata getDistance onePointTrack =
      some (⟨0, false, [0], 0⟩ : TrackMeta ℝ) ∧
    (⟨0, false, [0], 0⟩ : TrackMeta ℝ).maxSpeed =
      (specSegSpeeds getDistance (⟨0, 0, none, none⟩ : GeoPoint ℝ) []).foldl
        max 0 :=
  ⟨rfl, rfl,
   (claim6_max_speed_defended onePointTrack ⟨0, 0, none, none⟩ [] rfl
     ⟨0, false, [0], 0⟩ rfl).1⟩

/-- Claim C7: for a non-empty track the cumulative-distance sequence has one
entry per point, starts at 0, is non-decreasing, and its last entry is the
aggregator's total distance, which is the sum of the haversine `getDistance`
over all consecutive point pairs. -/
theorem claim7_cumulative_distances (track : TrackData ℝ) (p : GeoPoint ℝ)
    (tl : List (GeoPoint ℝ)) (hpts : track.points = p :: tl)
    (md : TrackMeta ℝ) (hmd : trackMetadata getDistance track = some md) :
    md.cumulativeDistances.length = track.points.length ∧
    md.cumulativeDistances.head? = some 0 ∧
    List.Chain' (· ≤ ·) md.cumulativeDistances ∧
    md.cumulativeDistances.getLast? = some md.totalDist ∧
    md.totalDist = pairwiseDistSum getDistance p tl := by
  simp only [trackMetadata, hpts, Option.some.injEq] at hmd
  subst hmd
  refine ⟨?_, rfl, ?_, ?_, ?_⟩
  · show (0 :: (metaScan getDistance _ p tl 0 0).1).length = track.points.length
    rw [hpts]
    simp [metaScan_fst_length]
  · exact metaScan_chain_le getDistance _ p tl 0 0
      (chain'_of_forall (fun a b => getDistance_nonneg a b) (p :: tl))
  · show (0 :: (metaScan getDistance _ p tl 0 0).1).getLast? =
      some (metaScan getDistance _ p tl 0 0).2.1
    rw [List.getLast?_cons, metaScan_totalDist_getLastD,
      List.getLastD_eq_getLast?]
  · show (metaScan getDistance _ p tl 0 0).2.1 =
      pairwiseDistSum getDistance p tl
    rw [metaScan_totalDist_sum, zero_add]

/-- Witness for C7 on a concrete single-point real track. -/
theorem claim7_witness :
    onePointTrack.points = [(⟨0, 0, none, none⟩ : GeoPoint ℝ)] ∧
    (⟨0, false, [0], 0⟩ : TrackMeta ℝ).cumulativeDistances.head? = some 0 :=
  ⟨rfl,
   (claim7_cumulative_distances onePointTrack ⟨0, 0, none, none⟩ [] rfl
     ⟨0, false, [0], 0⟩ rfl).2.1⟩

/-- Claim C1 counterexample: on the concrete two-point track `cexTrack1`
(N = 2), resolving at `progress = 1` yields `lastIndex = 0`, not
`N - 1 = 1`: the segment scan finds index 0 (the condition
`dists[0] ≤ targetDist ≤ dists[1]` holds at the full distance), so the
"no successor" branch that would return `lastPassedIndex = N-1` with
bearing 0 is never reached for a track with at least two points. -/
theorem claim1_counterexample :
    (resolveSimulation getDistance bearingOfSegment (some cexTrack1) 1).map
      SimStatus.lastIndex = some 0 ∧
    cexTrack1.points.length = 2 := by
  refine ⟨?_, rfl⟩
  have hnn : (0 : ℝ) ≤
      getDistance ⟨0, 0, none, none⟩ ⟨0, 1, none, none⟩ :=
    getDistance_nonneg _ _
  have hmd : trackMetadata getDistance cexTrack1 =
      some ⟨0, false,
        [0, 0 + getDistance ⟨0, 0, none, none⟩ ⟨0, 1, none, none⟩],
        0 + getDistance ⟨0, 0, none, none⟩ ⟨0, 1, none, none⟩⟩ := rfl
  have hfind : findSegAux
      ((1 : ℝ) * (0 + getDistance ⟨0, 0, none, none⟩ ⟨0, 1, none, none⟩)) 0
      [0, 0 + getDistance ⟨0, 0, none, none⟩ ⟨0, 1, none, none⟩] = some 0 := by
    unfold findSegAux
    rw [if_pos ⟨by nlinarith, by nlinarith⟩]
  simp only [resolveSimulation, hmd, hfind, Option.getD_some]
  rfl

/-- Claim C1 (amended): for a loaded track with at least two points and
non-negative segment distances, resolving at `progress = 0` yields the first
point's coordinates with `lastPassedIndex = 0`; and — when every segment has
positive length — resolving at `progress = 1` yields the last point's
coordinates with `lastPassedIndex = N-2` (not `N-1`) and the bearing of the
final segment (not 0): for N ≥ 2 the last-point branch of the source is dead
code, as the segment scan stops at index N-2. -/
theorem claim1_amended_resolution (d brg : GeoPoint α → GeoPoint α → α)
    (track : TrackData α) (hlen : 2 ≤ track.points.length)
    (hnn : List.Chain' (fun a b => 0 ≤ d a b) track.points)
    (p0 : GeoPoint α)
    (h0 : track.points.get? 0 = some p0) :
    ((resolveSimulation d brg (some track) 0).map SimStatus.lat =
        some p0.lat ∧
      (resolveSimulation d brg (some track) 0).map SimStatus.lon =
        some p0.lon ∧
      (resolveSimulation d brg (some track) 0).map SimStatus.lastIndex =
        some 0) ∧
    (List.Chain' (fun a b => 0 < d a b) track.points →
      ∀ pA pB, track.points.get? (track.points.length - 2) = some pA →
        track.points.get? (track.points.length - 1) = some pB →
        (resolveSimulation d brg (some track) 1).map SimStatus.lat =
          some pB.lat ∧
        (resolveSimulation d brg (some track) 1).map SimStatus.lon =
          some pB.lon ∧
        (resolveSimulation d brg (some track) 1).map SimStatus.bearing =
          some (brg pA pB) ∧
        (resolveSimulation d brg (some track) 1).map SimStatus.lastIndex =
          some (track.points.length - 2)) := by
  rcases hpts : track.points with _ | ⟨p, _ | ⟨q, tl⟩⟩
  · rw [hpts] at hlen; simp at hlen
  · rw [hpts] at hlen; simp at hlen
  rw [hpts] at hnn h0
  simp only [List.get?_cons_zero, Option.some.injEq] at h0
  subst h0
  rcases hL : (metaScan d ((p :: q :: tl).any fun r => r.time.isSome)
      p (q :: tl) 0 0).1 with _ | ⟨c1, L'⟩
  · have := metaScan_fst_length d
      ((p :: q :: tl).any fun r => r.time.isSome) p (q :: tl) 0 0
    rw [hL] at this
    simp at this
  have hLlen : L'.length = tl.length := by
    have := metaScan_fst_length d
      ((p :: q :: tl).any fun r => r.time.isSome) p (q :: tl) 0 0
    rw [hL] at this
    simpa using this
  constructor
  · -- progress = 0
    have hchain : List.Chain' (· ≤ ·)
        (0 :: (metaScan d ((p :: q :: tl).any fun r => r.time.isSome)
          p (q :: tl) 0 0).1) :=
      metaScan_chain_le d _ p (q :: tl) 0 0 hnn
    rw [hL] at hchain
    have hc1 : (0 : α) ≤ c1 := (List.chain'_cons.mp hchain).1
    have hfind : findSegAux (0 : α) 0 (0 :: c1 :: L') = some 0 := by
      unfold findSegAux
      rw [if_pos ⟨le_refl 0, hc1⟩]
    simp only [resolveSimulation, trackMetadata, hpts, hL, hfind,
      Option.getD_some, List.get?_cons_zero, List.get?_cons_succ,
      List.getD_cons_zero, List.getD_cons_succ, zero_mul, sub_zero,
      zero_div, ite_self, mul_zero, add_zero, Option.map_some']
    exact ⟨trivial, trivial, trivial⟩
  · -- progress = 1
    intro hpos pA pB hA hB
    have hNlen : (p :: q :: tl).length = tl.length + 2 := by simp
    rw [hNlen] at hA hB
    simp only [Nat.add_sub_cancel] at hA
    have hB' : (p :: q :: tl).get? (tl.length + 1) = some pB := by
      have : tl.length + 2 - 1 = tl.length + 1 := by omega
      rwa [this] at hB
    have hchain : List.Chain' (· < ·)
        (0 :: (metaScan d ((p :: q :: tl).any fun r => r.time.isSome)
          p (q :: tl) 0 0).1) :=
      metaScan_chain_lt d _ p (q :: tl) 0 0 hpos
    rw [hL] at hchain
    rcases hx : (c1 :: L').getLast? with _ | x
    · simp at hx
    have hT : (metaScan d ((p :: q :: tl).any fun r => r.time.isSome)
        p (q :: tl) 0 0).2.1 = x := by
      rw [metaScan_totalDist_getLastD, hL, List.getLastD_eq_getLast?, hx]
      rfl
    have hrec := findSegAux_last L' 0 c1 0 x hchain hx
    have hfind : findSegAux
        ((1 : α) * (metaScan d ((p :: q :: tl).any fun r => r.time.isSome)
          p (q :: tl) 0 0).2.1) 0 (0 :: c1 :: L') = some L'.length := by
      rw [one_mul, hT]
      simpa using hrec.1
    have hseg : (0 : α) <
        (0 :: c1 :: L').getD (L'.length + 1) 0 -
          (0 :: c1 :: L').getD L'.length 0 := by
      rw [hrec.2.2]
      exact sub_pos.mpr hrec.2.1
    have hAx : (p :: q :: tl).get? L'.length = some pA := by rwa [hLlen]
    have hBx : (p :: q :: tl).get? (L'.length + 1) = some pB := by
      rwa [hLlen]
    simp only [resolveSimulation, trackMetadata, hpts, hL, hfind,
      Option.getD_some, hAx, hBx, Option.map_some']
    rw [if_pos hseg]
    rw [one_mul, hT, hrec.2.2]
    rw [div_self (sub_ne_zero.mpr (ne_of_gt hrec.2.1))]
    refine ⟨by congr 1; ring, by congr 1; ring, trivial, ?_⟩
    congr 1

/-- Witness for C1 (amended) on a concrete two-point rational track with a
concrete distance function. -/
theorem claim1_witness :
    2 ≤ (⟨"w1", [⟨0, 0, none, none⟩, ⟨0, 1, none, none⟩],
      ((0, 0), (0, 1)), none⟩ : TrackData ℚ).points.length ∧
    (resolveSimulation (fun _ _ => (1 : ℚ)) (fun _ _ => 0)
      (some (⟨"w1", [⟨0, 0, none, none⟩, ⟨0, 1, none, none⟩],
        ((0, 0), (0, 1)), none⟩ : TrackData ℚ)) 1).map SimStatus.lastIndex =
      some ((⟨"w1", [⟨0, 0, none, none⟩, ⟨0, 1, none, none⟩],
        ((0, 0), (0, 1)), none⟩ : TrackData ℚ).points.length - 2) :=
  ⟨by decide,
   ((claim1_amended_resolution (fun _ _ => 1) (fun _ _ => 0)
      ⟨"w1", [⟨0, 0, none, none⟩, ⟨0, 1, none, none⟩], ((0, 0), (0, 1)), none⟩
      (by decide)
      (List.chain'_cons.mpr ⟨by norm_num, List.chain'_singleton _⟩)
      ⟨0, 0, none, none⟩ rfl).2
     (List.chain'_cons.mpr ⟨by norm_num, List.chain'_singleton _⟩)
     ⟨0, 0, none, none⟩ ⟨0, 1, none, none⟩ rfl rfl).2.2.2⟩

theorem parseGPX_success (gpxLib : String → Except String (List (Feature α)))
    (d : GeoPoint α → GeoPoint α → α) (content fileName : String)
    (data : TrackData α)
    (h : parseGPX gpxLib d content fileName = ParseResult.success data) :
    data.points ≠ [] ∧
    data.distanceKm = some (calculateDistance d data.points) := by
  simp only [parseGPX] at h
  cases hlib : gpxLib content with
  | error e => simp only [hlib] at h; simp at h
  | ok feats =>
    simp only [hlib] at h
    rcases hpts : List.foldl (fun acc f => gpxFeaturePoints f acc) [] feats
      with _ | ⟨p, tl⟩
    · simp only [hpts] at h; simp at h
    · simp only [hpts] at h
      simp only [ParseResult.success.injEq] at h
      subst h
      exact ⟨by simp, rfl⟩

theorem parseKML_success (kmlLib : String → Except String (List (Feature α)))
    (d : GeoPoint α → GeoPoint α → α) (content fileName : String)
    (data : TrackData α)
    (h : parseKML kmlLib d content fileName = ParseResult.success data) :
    data.points ≠ [] ∧
    data.distanceKm = some (calculateDistance d data.points) := by
  simp only [parseKML] at h
  cases hlib : kmlLib content with
  | error e => simp only [hlib] at h; simp at h
  | ok feats =>
    simp only [hlib] at h
    rcases hpts : List.foldl (fun acc f => kmlFeaturePoints f acc) [] feats
      with _ | ⟨p, tl⟩
    · simp only [hpts] at h; simp at h
    · simp only [hpts] at h
      simp only [ParseResult.success.injEq] at h
      subst h
      exact ⟨by simp, rfl⟩

theorem parseCSV_success (papaLib : String → Except String (PapaResult α))
    (dateMs : Option (CsvCell α) → Option α)
    (d : GeoPoint α → GeoPoint α → α) (content fileName : String)
    (data : TrackData α)
    (h : parseCSV papaLib dateMs d content fileName =
      Except.ok (ParseResult.success data)) :
    data.points ≠ [] ∧
    data.distanceKm = some (calculateDistance d data.points) := by
  simp only [parseCSV] at h
  split at h
  · simp at h
  · rw [Except.ok.injEq] at h
    split at h
    · simp at h
    · split at h
      · simp at h
      · simp only [ParseResult.success.injEq] at h
        subst h
        exact ⟨by simp_all, rfl⟩

theorem trackMetadata_isSome_of_ne_nil (d : GeoPoint α → GeoPoint α → α)
    (t : TrackData α) (h : t.points ≠ []) :
    (trackMetadata d t).isSome = true := by
  unfold trackMetadata
  rcases hpts : t.points with _ | ⟨p, tl⟩
  · exact absurd hpts h
  · rfl

/-- Claim C10: whenever `parseData` succeeds, the returned track has a
non-empty point list, its `distanceKm` field is exactly `calculateDistance`
over those points (the sum of `getDistance` over consecutive pairs, 0 for a
single point), and hence the track's metadata is never the null case. -/
theorem claim10_success_invariants
    (gpxLib kmlLib : String → Except String (List (Feature α)))
    (papaLib : String → Except String (PapaResult α))
    (dateMs : Option (CsvCell α) → Option α)
    (d : GeoPoint α → GeoPoint α → α) (content fileName : String)
    (data : TrackData α)
    (h : parseData gpxLib kmlLib papaLib dateMs d content fileName =
      Except.ok (ParseResult.success data)) :
    data.points ≠ [] ∧
    data.distanceKm = some (calculateDistance d data.points) ∧
    (∀ p tl, data.points = p :: tl →
      data.distanceKm = some (pairwiseDistSum d p tl)) ∧
    (trackMetadata d data).isSome = true := by
  have hcore : data.points ≠ [] ∧
      data.distanceKm = some (calculateDistance d data.points) := by
    unfold parseData parseDataBody at h
    by_cases hgpx : jsStartsWith (jsTrim content) ("<") = true ∧
        jsIncludes (jsTrim content) ("<gpx") = true
    · rw [if_pos hgpx] at h
      simp only [] at h
      cases hbody : parseGPX gpxLib d (jsTrim content) fileName with
      | success dataG =>
        rw [hbody] at h
        cases h
        exact parseGPX_success gpxLib d _ _ _ hbody
      | failure e => rw [hbody] at h; simp at h
    · rw [if_neg hgpx] at h
      by_cases hkml : jsStartsWith (jsTrim content) ("<") = true ∧
          jsIncludes (jsTrim content) ("<kml") = true
      · rw [if_pos hkml] at h
        cases hbody : parseKML kmlLib d (jsTrim content) fileName with
        | success dataK =>
          rw [hbody] at h
          cases h
          exact parseKML_success kmlLib d _ _ _ hbody
        | failure e => rw [hbody] at h; simp at h
      · rw [if_neg hkml] at h
        cases hbody : parseCSV papaLib dateMs d (jsTrim content) fileName with
        | ok r =>
          rw [hbody] at h
          cases h
          exact parseCSV_success papaLib dateMs d _ _ _ hbody
        | error e => rw [hbody] at h; simp at h
  refine ⟨hcore.1, hcore.2, ?_, trackMetadata_isSome_of_ne_nil d data hcore.1⟩
  intro p tl hpts
  rw [hcore.2, hpts, calculateDistance_eq_pairwiseDistSum]

/-- Witness for C10: a concrete one-row CSV parse over `ℚ` succeeds and the
invariants follow by applying the claim theorem to it. -/
theorem claim10_witness :
    parseData (fun _ => (Except.error ("boom") : Except String (List (Feature ℚ))))
      (fun _ => (Except.error ("boom") : Except String (List (Feature ℚ))))
      (fun _ => Except.ok
        (⟨[], [[(("latitude"), CsvCell.num 1), (("longitude"), CsvCell.num 2)]]⟩ :
          PapaResult ℚ))
      (fun _ => none) (fun _ _ => (0 : ℚ)) ("x") ("f") =
      Except.ok (ParseResult.success
        ⟨"f", [⟨1, 2, some 0, none⟩], ((1, 2), (1, 2)), some 0⟩) ∧
    (⟨"f", [⟨1, 2, some 0, none⟩], ((1, 2), (1, 2)), some 0⟩ :
      TrackData ℚ).points ≠ [] := by
  have h : parseData
      (fun _ => (Except.error ("boom") : Except String (List (Feature ℚ))))
      (fun _ => (Except.error ("boom") : Except String (List (Feature ℚ))))
      (fun _ => Except.ok
        (⟨[], [[(("latitude"), CsvCell.num 1), (("longitude"), CsvCell.num 2)]]⟩ :
          PapaResult ℚ))
      (fun _ => none) (fun _ _ => (0 : ℚ)) ("x") ("f") =
      Except.ok (ParseResult.success
        ⟨"f", [⟨1, 2, some 0, none⟩], ((1, 2), (1, 2)), some 0⟩) := by
    rfl
  exact ⟨h,
    (claim10_success_invariants _ _ _ _ _ ("x") ("f") _ h).1⟩

set_option maxHeartbeats 1000000 in
theorem annotStep_speed_filter (d : GeoPoint α → GeoPoint α → α)
    (cfg : AnnotConfig α) (k : AnnotConsts α) (ft : α)
    (pprev : Option (GeoPoint α)) (p1 p2 : GeoPoint α) (st : AnnotState α)
    (t1 t2 : α) (h1 : p1.time = some t1) (h2 : p2.time = some t2)
    (hft : ft ≠ 0) :
    ((annotStep d cfg k (some ft) pprev p1 p2 st).1.filter
      (fun m => m.type = MarkerType.SPEED)) =
    (if cfg.speedEnabled = true ∧
        k.speedLimitKmh < segSpeedKmh (d p1 p2) t1 t2 ∧
        (prevSegSpeedKmh d pprev p1 t1).jsLe k.speedLimitKmh = true then
      [⟨p1.lat, p1.lon, MarkerType.SPEED, segSpeedKmh (d p1 p2) t1 t2⟩]
    else []) := by
  simp only [annotStep, h1, h2]
  rw [if_neg hft]
  rcases hss : st.stopStart with _ | ⟨ts, sp⟩ <;>
    simp only [hss, stopTruthy] <;>
    split_ifs <;>
    simp_all [List.filter_append, List.filter]

theorem prevSegSpeed_eq_prev_segment (d : GeoPoint α → GeoPoint α → α)
    (p0 p1 : GeoPoint α) (t0 t1 : α) (h : p0.time = some t0) (h0 : t0 ≠ 0)
    (hlt : t0 < t1) :
    prevSegSpeedKmh d (some p0) p1 t1 =
      JsNum.fin (segSpeedKmh (d p0 p1) t0 t1) := by
  have hpos : (0 : α) < (t1 - t0) / 3600000 :=
    div_pos (sub_pos.mpr hlt) (by norm_num)
  simp only [prevSegSpeedKmh, h, Option.isSome_some]
  rw [if_pos ⟨trivial, h0⟩]
  unfold jsDiv segSpeedKmh
  rw [if_neg (ne_of_gt hpos), if_pos hpos]

theorem prevSegSpeed_zero_delta (d : GeoPoint α → GeoPoint α → α)
    (p0 p1 : GeoPoint α) (t0 : α) (h : p0.time = some t0) (h0 : t0 ≠ 0)
    (hd : 0 < d p0 p1) :
    prevSegSpeedKmh d (some p0) p1 t0 = JsNum.posInf := by
  simp only [prevSegSpeedKmh, h, Option.isSome_some]
  rw [if_pos ⟨trivial, h0⟩]
  unfold jsDiv
  rw [sub_self, zero_div, if_pos rfl, if_pos hd]

/-- Claim C4 (amended): with the speed rule enabled and the detector's
truthiness guards satisfied (both segment timestamps present and the first
point's timestamp nonzero), a scan step emits a SPEED marker anchored at
`p[i]` carrying the segment speed exactly when that speed exceeds the
configured limit (converted to km/h for an mph limit) and the detector's
previous-segment speed — a JS number — does not exceed it; that
previous-segment speed agrees with the previous segment's instantaneous
speed whenever the previous timestamp is nonzero and strictly earlier, so a
sustained over-limit run yields one marker at its first segment, while a
previous point with the same nonzero timestamp makes it +Infinity (never
below the limit, so nothing is emitted); and the concrete five-point
scenario track (1-minute spacing, distances 1,2,1,1 km, limit 100 km/h)
produces exactly one SPEED marker, anchored at point 2 (the second point,
index 1), showing 120 km/h.  The timestamp provisos are needed: see the
counterexample, where a first timestamp of exactly 0 disables the detector
entirely. -/
theorem claim4_amended_speed_detector :
    (∀ (d : GeoPoint α → GeoPoint α → α) (cfg : AnnotConfig α)
        (k : AnnotConsts α) (ft : α) (pprev : Option (GeoPoint α))
        (p1 p2 : GeoPoint α) (st : AnnotState α) (t1 t2 : α),
      p1.time = some t1 → p2.time = some t2 → ft ≠ 0 →
      ((annotStep d cfg k (some ft) pprev p1 p2 st).1.filter
        (fun m => m.type = MarkerType.SPEED)) =
      (if cfg.speedEnabled = true ∧
          k.speedLimitKmh < segSpeedKmh (d p1 p2) t1 t2 ∧
          (prevSegSpeedKmh d pprev p1 t1).jsLe k.speedLimitKmh = true then
        [⟨p1.lat, p1.lon, MarkerType.SPEED, segSpeedKmh (d p1 p2) t1 t2⟩]
      else [])) ∧
    (∀ (d : GeoPoint α → GeoPoint α → α) (p0 p1 : GeoPoint α) (t0 t1 : α),
      p0.time = some t0 → t0 ≠ 0 → t0 < t1 →
      prevSegSpeedKmh d (some p0) p1 t1 =
        JsNum.fin (segSpeedKmh (d p0 p1) t0 t1)) ∧
    (∀ (d : GeoPoint α → GeoPoint α → α) (p0 p1 : GeoPoint α) (t0 y : α),
      p0.time = some t0 → t0 ≠ 0 → 0 < d p0 p1 →
      prevSegSpeedKmh d (some p0) p1 t0 = JsNum.posInf ∧
      (JsNum.posInf : JsNum α).jsLe y = false) ∧
    (∀ cfg : AnnotConfig α, cfg.speedUnit = SpeedUnit.mphU →
      (annotConsts cfg).speedLimitKmh =
        cfg.speedLimit * (160934 / 100000 : α)) ∧
    smartMarkers lonDist true (speedOnlyCfg 100) (some scenarioSpeedTrack) =
      [⟨0, 1, MarkerType.SPEED, 120⟩] := by
  refine ⟨?_, ?_, ?_, ?_, ?_⟩
  · intro d cfg k ft pprev p1 p2 st t1 t2 h1 h2 hft
    exact annotStep_speed_filter d cfg k ft pprev p1 p2 st t1 t2 h1 h2 hft
  · intro d p0 p1 t0 t1 h h0 hlt
    exact prevSegSpeed_eq_prev_segment d p0 p1 t0 t1 h h0 hlt
  · intro d p0 p1 t0 y h h0 hd
    exact ⟨prevSegSpeed_zero_delta d p0 p1 t0 h h0 hd, rfl⟩
  · intro cfg hmph
    simp [annotConsts, hmph]
  · norm_num [smartMarkers, scenarioSpeedTrack, annotScanAux, annotStep,
      annotFlush, speedOnlyCfg, annotConsts, stopTruthy, segSpeedKmh,
      prevSegSpeedKmh, jsDiv, JsNum.jsLe, lonDist]
    norm_num [show (SpeedUnit.kmhU = SpeedUnit.mphU) = False by simp]

/-- Claim C4 counterexample: on `cexSpeedTrack` the only segment's speed is
far above the 100 km/h limit and the detector's previous-segment speed is 0
(no previous segment), so the claim demands a SPEED marker — but the scan
emits none, because the first point's timestamp is exactly 0 and the JS
truthiness test `p1.time && p2.time && firstTime` disables the detectors. -/
theorem claim4_counterexample :
    100 < segSpeedKmh
      (getDistance (⟨-90, 0, none, some 0⟩ : GeoPoint ℝ)
        ⟨90, 0, none, some 60000⟩) 0 60000 ∧
    (prevSegSpeedKmh getDistance none
      (⟨-90, 0, none, some 0⟩ : GeoPoint ℝ) 0).jsLe 100 = true ∧
    smartMarkers getDistance true (speedOnlyCfg 100) (some cexSpeedTrack) =
      [] := by
  refine ⟨?_, ?_, ?_⟩
  · rw [getDistance_pole_up]
    unfold segSpeedKmh
    rw [if_pos (by norm_num : (0 : ℝ) < (60000 - 0) / 3600000)]
    have hπ := Real.pi_gt_three
    rw [show ((60000 : ℝ) - 0) / 3600000 = 1 / 60 by norm_num]
    nlinarith
  · unfold prevSegSpeedKmh
    norm_num [JsNum.jsLe]
  · simp only [smartMarkers, cexSpeedTrack, annotScanAux, annotStep,
      annotFlush, speedOnlyCfg, annotConsts, stopTruthy]
    norm_num

/-- Witness for C4 (amended): the previous-segment-speed conjunct applied at
a concrete rational input. -/
theorem claim4_witness :
    ((⟨0, 0, none, some 60000⟩ : GeoPoint ℚ).time = some 60000 ∧
      (60000 : ℚ) ≠ 0 ∧ (60000 : ℚ) < 120000) ∧
    prevSegSpeedKmh lonDist (some ⟨0, 0, none, some 60000⟩)
      (⟨0, 1, none, some 120000⟩ : GeoPoint ℚ) 120000 =
    JsNum.fin (segSpeedKmh
      (lonDist ⟨0, 0, none, some 60000⟩ ⟨0, 1, none, some 120000⟩)
      60000 120000) :=
  ⟨⟨rfl, by norm_num, by norm_num⟩,
   claim4_amended_speed_detector.2.1 lonDist ⟨0, 0, none, some 60000⟩
     ⟨0, 1, none, some 120000⟩ 60000 120000 rfl (by norm_num) (by norm_num)⟩

set_option maxHeartbeats 1000000 in
theorem annotStep_stop_open (d : GeoPoint α → GeoPoint α → α)
    (cfg : AnnotConfig α) (k : AnnotConsts α) (ft : α)
    (pprev : Option (GeoPoint α)) (p1 p2 : GeoPoint α) (st : AnnotState α)
    (t1 t2 : α) (hstop : cfg.stopEnabled = true) (h1 : p1.time = some t1)
    (h2 : p2.time = some t2) (hft : ft ≠ 0)
    (hs : segSpeedKmh (d p1 p2) t1 t2 < 1) :
    ((annotStep d cfg k (some ft) pprev p1 p2 st).1.filter
      (fun m => m.type = MarkerType.STOP)) = [] ∧
    (annotStep d cfg k (some ft) pprev p1 p2 st).2.stopStart =
      (if stopTruthy st.stopStart = true then st.stopStart
       else some (t1, p1)) := by
  simp only [annotStep, h1, h2]
  rw [if_neg hft]
  simp only [hstop, if_true]
  rw [if_pos hs]
  constructor
  · split_ifs <;> simp_all [List.filter_append, List.filter]
  · split_ifs <;> rfl

set_option maxHeartbeats 1000000 in
theorem annotStep_stop_close (d : GeoPoint α → GeoPoint α → α)
    (cfg : AnnotConfig α) (k : AnnotConsts α) (ft : α)
    (pprev : Option (GeoPoint α)) (p1 p2 : GeoPoint α) (st : AnnotState α)
    (t1 t2 ts : α) (sp : GeoPoint α) (hstop : cfg.stopEnabled = true)
    (h1 : p1.time = some t1) (h2 : p2.time = some t2) (hft : ft ≠ 0)
    (hs : ¬ segSpeedKmh (d p1 p2) t1 t2 < 1)
    (hss : st.stopStart = some (ts, sp)) (hts : ts ≠ 0) :
    ((annotStep d cfg k (some ft) pprev p1 p2 st).1.filter
      (fun m => m.type = MarkerType.STOP)) =
    (if k.stopMinDurationMs ≤ t1 - ts then
      [⟨sp.lat, sp.lon, MarkerType.STOP, (t1 - ts) / 60000⟩]
    else []) ∧
    (annotStep d cfg k (some ft) pprev p1 p2 st).2.stopStart = none := by
  have htruthy : stopTruthy st.stopStart = true := by
    rw [hss]
    simp [stopTruthy, hts]
  simp only [annotStep, h1, h2]
  rw [if_neg hft]
  simp only [hstop, if_true]
  rw [if_neg hs, if_pos htruthy, hss]
  constructor
  · split_ifs <;> simp_all [List.filter_append, List.filter]
  · rfl

theorem annotFlush_open_run (cfg : AnnotConfig α) (k : AnnotConsts α)
    (st : AnnotState α) (ts : α) (sp lastP : GeoPoint α) (tLast : α)
    (hstop : cfg.stopEnabled = true) (hss : st.stopStart = some (ts, sp))
    (hts : ts ≠ 0) (hlast : lastP.time = some tLast) :
    annotFlush cfg k st lastP =
    (if k.stopMinDurationMs ≤ tLast - ts then
      [⟨sp.lat, sp.lon, MarkerType.STOP, (tLast - ts) / 60000⟩]
    else []) := by
  have htruthy : stopTruthy st.stopStart = true := by
    rw [hss]
    simp [stopTruthy, hts]
  unfold annotFlush
  rw [if_pos ⟨hstop, htruthy⟩, hss, hlast]

/-- Claim C5 (amended): with the stop rule enabled and the detector's
truthiness guards satisfied (segment timestamps present, first point's
timestamp nonzero), a timestamped segment with speed below 1 km/h opens or
extends a stopped run (remembering start time and start point) and emits no
STOP marker; a timestamped segment with speed at least 1 km/h closes an open
run whose start time is nonzero and emits exactly one STOP marker at the
run's start point labelled with the duration in minutes exactly when the
duration reaches the configured minimum; a run still open after the last
pair is flushed against the final point's timestamp with the same test; and
the concrete four-point scenario (a 10-minute stationary middle segment,
5-minute threshold) yields exactly one STOP marker at point 1, labelled 10
minutes ("Stop 10.0m").  The nonzero-timestamp provisos are needed: see the
counterexample, where a run starting at timestamp 0 is never reported. -/
theorem claim5_amended_stop_detector :
    (∀ (d : GeoPoint α → GeoPoint α → α) (cfg : AnnotConfig α)
        (k : AnnotConsts α) (ft : α) (pprev : Option (GeoPoint α))
        (p1 p2 : GeoPoint α) (st : AnnotState α) (t1 t2 : α),
      cfg.stopEnabled = true → p1.time = some t1 → p2.time = some t2 →
      ft ≠ 0 → segSpeedKmh (d p1 p2) t1 t2 < 1 →
      ((annotStep d cfg k (some ft) pprev p1 p2 st).1.filter
        (fun m => m.type = MarkerType.STOP)) = [] ∧
      (annotStep d cfg k (some ft) pprev p1 p2 st).2.stopStart =
        (if stopTruthy st.stopStart = true then st.stopStart
         else some (t1, p1))) ∧
    (∀ (d : GeoPoint α → GeoPoint α → α) (cfg : AnnotConfig α)
        (k : AnnotConsts α) (ft : α) (pprev : Option (GeoPoint α))
        (p1 p2 : GeoPoint α) (st : AnnotState α) (t1 t2 ts : α)
        (sp : GeoPoint α),
      cfg.stopEnabled = true → p1.time = some t1 → p2.time = some t2 →
      ft ≠ 0 → ¬ segSpeedKmh (d p1 p2) t1 t2 < 1 →
      st.stopStart = some (ts, sp) → ts ≠ 0 →
      ((annotStep d cfg k (some ft) pprev p1 p2 st).1.filter
        (fun m => m.type = MarkerType.STOP)) =
      (if k.stopMinDurationMs ≤ t1 - ts then
        [⟨sp.lat, sp.lon, MarkerType.STOP, (t1 - ts) / 60000⟩]
      else []) ∧
      (annotStep d cfg k (some ft) pprev p1 p2 st).2.stopStart = none) ∧
    (∀ (cfg : AnnotConfig α) (k : AnnotConsts α) (st : AnnotState α)
        (ts : α) (sp lastP : GeoPoint α) (tLast : α),
      cfg.stopEnabled = true → st.stopStart = some (ts, sp) → ts ≠ 0 →
      lastP.time = some tLast →
      annotFlush cfg k st lastP =
      (if k.stopMinDurationMs ≤ tLast - ts then
        [⟨sp.lat, sp.lon, MarkerType.STOP, (tLast - ts) / 60000⟩]
      else [])) ∧
    smartMarkers lonDist true (stopOnlyCfg 5) (some scenarioStopTrack) =
      [⟨0, 1, MarkerType.STOP, 10⟩] := by
  refine ⟨?_, ?_, ?_, ?_⟩
  · intro d cfg k ft pprev p1 p2 st t1 t2 hstop h1 h2 hft hs
    exact annotStep_stop_open d cfg k ft pprev p1 p2 st t1 t2 hstop h1 h2
      hft hs
  · intro d cfg k ft pprev p1 p2 st t1 t2 ts sp hstop h1 h2 hft hs hss hts
    exact annotStep_stop_close d cfg k ft pprev p1 p2 st t1 t2 ts sp hstop
      h1 h2 hft hs hss hts
  · intro cfg k st ts sp lastP tLast hstop hss hts hlast
    exact annotFlush_open_run cfg k st ts sp lastP tLast hstop hss hts hlast
  · norm_num [smartMarkers, scenarioStopTrack, annotScanAux, annotStep,
      annotFlush, stopOnlyCfg, annotConsts, stopTruthy, segSpeedKmh,
      prevSegSpeedKmh, jsDiv, JsNum.jsLe, lonDist]

/-- Claim C5 counterexample: on `epochStopTrack` the single segment is
stationary for 10 minutes (≥ the 5-minute threshold), so the claim demands
a flushed STOP marker — but the scan emits nothing, because the first
point's timestamp is exactly 0: JS numeric truthiness treats both
`firstTime` and a run start time of 0 as absent. -/
theorem claim5_counterexample :
    (annotConsts (stopOnlyCfg (5 : ℝ))).stopMinDurationMs ≤ 600000 - 0 ∧
    segSpeedKmh
      (getDistance (⟨0, 0, none, some 0⟩ : GeoPoint ℝ)
        ⟨0, 0, none, some 600000⟩) 0 600000 < 1 ∧
    smartMarkers getDistance true (stopOnlyCfg 5) (some epochStopTrack) =
      [] := by
  refine ⟨?_, ?_, ?_⟩
  · norm_num [annotConsts, stopOnlyCfg,
      show (StopUnit.minU = StopUnit.minU) = True by simp]
  · rw [getDistance_self_coords]
    unfold segSpeedKmh
    rw [if_pos (by norm_num : (0 : ℝ) < (600000 - 0) / 3600000)]
    norm_num
  · simp only [smartMarkers, epochStopTrack, annotScanAux, annotStep,
      annotFlush, stopOnlyCfg, annotConsts, stopTruthy]
    norm_num

/-- Witness for C5 (amended): the flush conjunct applied at a concrete
rational input. -/
theorem claim5_witness :
    ((stopOnlyCfg (5 : ℚ)).stopEnabled = true ∧ (60000 : ℚ) ≠ 0 ∧
      (⟨0, 0, none, some 720000⟩ : GeoPoint ℚ).time = some 720000) ∧
    annotFlush (stopOnlyCfg (5 : ℚ)) (annotConsts (stopOnlyCfg 5))
      ⟨0, 1, 600000, some (60000, ⟨0, 0, none, none⟩)⟩
      ⟨0, 0, none, some 720000⟩ =
    (if (annotConsts (stopOnlyCfg (5 : ℚ))).stopMinDurationMs ≤
        720000 - 60000 then
      [⟨0, 0, MarkerType.STOP, (720000 - 60000) / 60000⟩]
    else []) :=
  ⟨⟨rfl, by norm_num, rfl⟩,
   claim5_amended_stop_detector.2.2.1 (stopOnlyCfg 5)
     (annotConsts (stopOnlyCfg 5))
     ⟨0, 1, 600000, some (60000, ⟨0, 0, none, none⟩)⟩ 60000
     ⟨0, 0, none, none⟩ ⟨0, 0, none, some 720000⟩ 720000 rfl rfl
     (by norm_num) rfl⟩

end GeoTrack
